import Mathlib

/-!
Verification of the claude-code-notify extension core.

A shallow embedding of the repository's configuration validator
(`HookService.validateConfig`), sound-name sanitizer, bash escaping,
script generators, config store (`ConfigService.load/save/mergeWithDefaults`),
and the settings-document mutation protocol
(`HookService.install/remove/isInstalled/acquireSettingsLock`).

Dynamic JavaScript values (arbitrary JSON plus `undefined`) are modelled by
`JSVal`; JavaScript numbers are modelled by exact rationals (the numeric
values exercised here are small integers and tenths, where IEEE doubles are
exact); the filesystem and JSON text codec are external to the repository and
are modelled at their interface (a parsed settings/config document).
-/

/-- A dynamic JavaScript value: JSON values plus `undefined`.
Objects are ordered key/value lists (JavaScript objects preserve insertion
order and cannot hold duplicate keys). -/
inductive JSVal where
  | null
  | undefined
  | bool (b : Bool)
  | num (q : ℚ)
  | str (s : String)
  | arr (elems : List JSVal)
  | obj (fields : List (String × JSVal))

/-- JavaScript truthiness (`!v` / `v || d` tests). `NaN` is not representable
in the rational model; every representable number other than 0 is truthy. -/
def truthy : JSVal → Bool
  | .null => false
  | .undefined => false
  | .bool b => b
  | .num q => if q = 0 then false else true
  | .str s => if s = "" then false else true
  | .arr _ => true
  | .obj _ => true

/-- Property lookup on an object field list (first match; real JS objects have
no duplicate keys). -/
def getFields : List (String × JSVal) → String → JSVal
  | [], _ => .undefined
  | (k', v) :: rest, k => if k' = k then v else getFields rest k

/-- JavaScript property access `v[k]` for the non-nullish values the code
applies it to: objects yield their field, primitives and arrays yield
`undefined` for the (non-index) property names used by this code. -/
def getField : JSVal → String → JSVal
  | .obj fs, k => getFields fs k
  | _, _ => .undefined

/-- Optional chaining `v?.k`: short-circuits on `null`/`undefined`. -/
def getFieldOpt (v : JSVal) (k : String) : JSVal :=
  match v with
  | .null => .undefined
  | .undefined => .undefined
  | _ => getField v k

/-- Is the value `null` or `undefined` (the `??` test)? -/
def nullish : JSVal → Bool
  | .null => true
  | .undefined => true
  | _ => false

/-- JavaScript `a ?? b`. -/
def jsNullishOr (a b : JSVal) : JSVal := if nullish a then b else a

/-- JavaScript `a || b`. -/
def jsOr (a b : JSVal) : JSVal := if truthy a then a else b

/-- `typeof v === 'boolean'`. -/
def isBoolV : JSVal → Bool
  | .bool _ => true
  | _ => false

/-- `typeof v === 'number'`. -/
def isNumV : JSVal → Bool
  | .num _ => true
  | _ => false

/-- `typeof v === 'string'`. -/
def isStrV : JSVal → Bool
  | .str _ => true
  | _ => false

/-- `v === undefined`. -/
def isUndefV : JSVal → Bool
  | .undefined => true
  | _ => false

/-- `typeof v === 'object'` (true for `null`, arrays and plain objects). -/
def isObjectType : JSVal → Bool
  | .null => true
  | .arr _ => true
  | .obj _ => true
  | _ => false

/-- `v === s` for a string literal `s`. -/
def isStrEq (v : JSVal) (s : String) : Bool :=
  match v with
  | .str t => if t = s then true else false
  | _ => false

/-! ## `DEFAULT_CONFIG` (src/types.ts)

Note: the per-kind defaults carry `enabled`, `mode`, `voice`, `text` but no
`sound` key — `DEFAULT_CONFIG.notifications[type].sound` is `undefined`. -/

/-- One per-kind default entry of `DEFAULT_CONFIG.notifications`. -/
def defaultSettingJS (voice text : String) : JSVal :=
  .obj [("enabled", .bool true), ("mode", .str "talk"),
        ("voice", .str voice), ("text", .str text)]

/-- `DEFAULT_CONFIG` from `src/types.ts`, as the runtime object. -/
def DEFAULT_CONFIG_JS : JSVal :=
  .obj [("enabled", .bool true), ("volume", .num 70), ("cooldown", .num 3),
        ("notifications", .obj [
          ("permission_prompt", defaultSettingJS "Ava (Premium)" "Permission required"),
          ("idle_prompt", defaultSettingJS "Ava (Premium)" "Done"),
          ("elicitation_dialog", defaultSettingJS "Ava (Premium)" "Input needed"),
          ("response_complete", defaultSettingJS "Ava (Premium)" "Response ready")])]

/-! ## `HookService.validateConfig` -/

/-- The body of the per-kind loop of `validateConfig`: validate one
`NotificationSetting` against its entry of `DEFAULT_CONFIG.notifications`. -/
def validateSetting (setting defSetting : JSVal) : JSVal :=
  .obj [
    ("enabled", if isBoolV (getFieldOpt setting "enabled") then getFieldOpt setting "enabled"
                else getField defSetting "enabled"),
    ("mode", if isStrEq (getFieldOpt setting "mode") "talk" || isStrEq (getFieldOpt setting "mode") "sound"
             then getFieldOpt setting "mode" else getField defSetting "mode"),
    ("voice", if isStrV (getFieldOpt setting "voice") then getFieldOpt setting "voice"
              else getField defSetting "voice"),
    ("text", if isStrV (getFieldOpt setting "text") then getFieldOpt setting "text"
             else getField defSetting "text"),
    ("sound", if isStrV (getFieldOpt setting "sound") then getFieldOpt setting "sound"
              else getField defSetting "sound")]

/-- `HookService.validateConfig` (src/services/HookService.ts, lines 59–95). -/
def validateConfig (config : JSVal) : JSVal :=
  if !truthy config || !isObjectType config then DEFAULT_CONFIG_JS
  else
    let notifications := jsOr (getField config "notifications") (.obj [])
    let defaults := getField DEFAULT_CONFIG_JS "notifications"
    .obj [
      ("enabled", if isBoolV (getField config "enabled") then getField config "enabled"
                  else getField DEFAULT_CONFIG_JS "enabled"),
      ("volume", if isNumV (getField config "volume") then getField config "volume"
                 else getField DEFAULT_CONFIG_JS "volume"),
      ("cooldown", if isNumV (getField config "cooldown") then getField config "cooldown"
                   else getField DEFAULT_CONFIG_JS "cooldown"),
      ("notifications", .obj [
        ("permission_prompt",
          validateSetting (getField notifications "permission_prompt") (getField defaults "permission_prompt")),
        ("idle_prompt",
          validateSetting (getField notifications "idle_prompt") (getField defaults "idle_prompt")),
        ("elicitation_dialog",
          validateSetting (getField notifications "elicitation_dialog") (getField defaults "elicitation_dialog")),
        ("response_complete",
          validateSetting (getField notifications "response_complete") (getField defaults "response_complete"))])]

/-! ## Well-typedness predicates for validated configurations -/

/-- `mode` is exactly the string `"talk"` or `"sound"`. -/
def isTalkOrSound (v : JSVal) : Bool :=
  isStrEq v "talk" || isStrEq v "sound"

/-- Per-kind well-typedness exactly as claimed by the spec: `enabled` boolean,
`mode` is `"talk"` or `"sound"`, and `voice`, `text`, `sound` all strings. -/
def wellTypedSettingClaim (v : JSVal) : Bool :=
  isBoolV (getField v "enabled") && isTalkOrSound (getField v "mode") &&
  isStrV (getField v "voice") && isStrV (getField v "text") && isStrV (getField v "sound")

/-- Per-kind well-typedness as the code actually guarantees it: like
`wellTypedSettingClaim` except that `sound` may also be `undefined`/absent
(because `DEFAULT_CONFIG` supplies no default sound). -/
def wellTypedSettingAmended (v : JSVal) : Bool :=
  isBoolV (getField v "enabled") && isTalkOrSound (getField v "mode") &&
  isStrV (getField v "voice") && isStrV (getField v "text") &&
  (isStrV (getField v "sound") || isUndefV (getField v "sound"))

/-- Whole-config well-typedness exactly as claimed by the spec. -/
def wellTypedConfigClaim (v : JSVal) : Bool :=
  isBoolV (getField v "enabled") && isNumV (getField v "volume") &&
  isNumV (getField v "cooldown") &&
  wellTypedSettingClaim (getField (getField v "notifications") "permission_prompt") &&
  wellTypedSettingClaim (getField (getField v "notifications") "idle_prompt") &&
  wellTypedSettingClaim (getField (getField v "notifications") "elicitation_dialog") &&
  wellTypedSettingClaim (getField (getField v "notifications") "response_complete")

/-- Whole-config well-typedness as the code actually guarantees it
(`sound` fields may be `undefined`). -/
def wellTypedConfigAmended (v : JSVal) : Bool :=
  isBoolV (getField v "enabled") && isNumV (getField v "volume") &&
  isNumV (getField v "cooldown") &&
  wellTypedSettingAmended (getField (getField v "notifications") "permission_prompt") &&
  wellTypedSettingAmended (getField (getField v "notifications") "idle_prompt") &&
  wellTypedSettingAmended (getField (getField v "notifications") "elicitation_dialog") &&
  wellTypedSettingAmended (getField (getField v "notifications") "response_complete")

/-! ## String helpers of `HookService` and `SoundService` -/

/-- The five characters escaped by `escapeForBash` — the regex character class
`[$` + backquote + `\!"]` of src/services/HookService.ts line 32. -/
def bashSpecials : List Char := ['$', Char.ofNat 96, '\\', '!', '\"']

/-- Membership in the escaped character class. -/
def isBashSpecial (c : Char) : Bool := bashSpecials.contains c

/-- `str.replace(/[$` + backquote + `\!"]/g, backslash + '$&')` at the
character-list level: each matched character is replaced by a backslash
followed by itself. -/
def escList : List Char → List Char
  | [] => []
  | c :: cs => (if isBashSpecial c then ['\\', c] else [c]) ++ escList cs

/-- `HookService.escapeForBash` (src/services/HookService.ts, lines 31–33). -/
def escapeForBash (s : String) : String := ⟨escList s.data⟩

/-- The characters matched by the JavaScript regex class `\s`
(ECMAScript WhiteSpace and LineTerminator code points). -/
def jsWhitespaceChars : List Char :=
  ['\t', '\n', Char.ofNat 11, Char.ofNat 12, '\r', ' ',
   Char.ofNat 160, Char.ofNat 0x1680,
   Char.ofNat 0x2000, Char.ofNat 0x2001, Char.ofNat 0x2002, Char.ofNat 0x2003,
   Char.ofNat 0x2004, Char.ofNat 0x2005, Char.ofNat 0x2006, Char.ofNat 0x2007,
   Char.ofNat 0x2008, Char.ofNat 0x2009, Char.ofNat 0x200A,
   Char.ofNat 0x2028, Char.ofNat 0x2029, Char.ofNat 0x202F, Char.ofNat 0x205F,
   Char.ofNat 0x3000, Char.ofNat 0xFEFF]

/-- `c` matches the JavaScript regex class `\s`. -/
def isJsWhitespace (c : Char) : Bool := jsWhitespaceChars.contains c

/-- The characters kept by `sanitizeSoundName`: complement of the stripping
regex `[^a-zA-Z0-9\s\-_]`, i.e. ASCII alphanumerics, `\s` whitespace,
hyphen and underscore. -/
def keepSound (c : Char) : Bool :=
  ('a' ≤ c && c ≤ 'z') || ('A' ≤ c && c ≤ 'Z') || ('0' ≤ c && c ≤ '9') ||
  isJsWhitespace c || c = '-' || c = '_'

/-- `HookService.sanitizeSoundName` (src/services/HookService.ts, lines 50–53;
textually identical in `SoundService.sanitizeSoundName`): strip every
character not matched by `[a-zA-Z0-9\s\-_]`, and fall back to `"Glass"` when
the stripped result is the empty string (`sanitized || 'Glass'`). -/
def sanitizeSoundName (name : String) : String :=
  let sanitized : String := ⟨name.data.filter keepSound⟩
  if sanitized = "" then "Glass" else sanitized

/-- The character set `[A-Za-z0-9 _-]` exactly as the spec claims it
(literal space only, not the full `\s` class). -/
def claimedSoundChar (c : Char) : Bool :=
  ('a' ≤ c && c ≤ 'z') || ('A' ≤ c && c ≤ 'Z') || ('0' ≤ c && c ≤ '9') ||
  c = ' ' || c = '-' || c = '_'

/-- `HookService.clampNumber` / `SoundService.clampNumber` on an actual
number: `Math.max(min, Math.min(max, num))`. (`Number()` coercion is the
identity on numbers; the `isNaN` early return has no rational counterpart and
is reachable only from non-numeric input.) -/
def clampNumber (value min max defaultValue : ℚ) : ℚ :=
  let _ := defaultValue
  Max.max min (Min.min max value)

/-! ## JavaScript number-to-string conversion

Template-literal interpolation `${n}` stringifies a number. The values
reaching it in this code are clamped volumes divided by 100 and clamped
cooldowns, all exactly representable; we print the integer part and then the
finite decimal expansion digit by digit (20-digit fuel, far more than any
value occurring here needs). -/

/-- Decimal digits of the fraction `rem/den ∈ [0,1)` by long division
(empty once the remainder is zero). -/
def fracDigitsND : Nat → Nat → Nat → String
  | 0, _, _ => ""
  | fuel + 1, rem, den =>
    if rem = 0 then ""
    else toString (rem * 10 / den) ++ fracDigitsND fuel (rem * 10 % den) den

/-- Stringify a nonnegative rational the way JavaScript prints the
corresponding (exact) double: integer part, then the finite decimal
expansion of the remainder. -/
def jsNumToStringNonneg (q : ℚ) : String :=
  toString (q.num / (q.den : ℤ)) ++
  (let rem : ℤ := q.num % (q.den : ℤ)
   if rem = 0 then "" else "." ++ fracDigitsND 20 rem.toNat q.den)

/-- Stringify a rational the way JavaScript prints the corresponding double
(for the exactly-representable values this code produces). -/
def jsNumToString (q : ℚ) : String :=
  if q < 0 then "-" ++ jsNumToStringNonneg (-q) else jsNumToStringNonneg q

/-- Template-literal interpolation of a boolean expression
(`${config.enabled === true}`). -/
def jsBoolStr (b : Bool) : String := if b then "true" else "false"

/-! ## The validated configuration type (`ClaudeNotifyConfig` of src/types.ts)

The script generators consume a value of the TypeScript interface
`ClaudeNotifyConfig`; optional string fields (`voice?`, `text?`, `sound?`)
are `Option String`, `none` meaning the key is absent. -/

/-- `NotificationSetting` of src/types.ts. -/
structure NotificationSetting where
  enabled : Bool
  mode : String
  voice : Option String
  text : Option String
  sound : Option String
deriving Repr, DecidableEq

/-- The `notifications` record of `ClaudeNotifyConfig` (all four kinds). -/
structure NotificationsMap where
  permission_prompt : NotificationSetting
  idle_prompt : NotificationSetting
  elicitation_dialog : NotificationSetting
  response_complete : NotificationSetting
deriving Repr, DecidableEq

/-- `ClaudeNotifyConfig` of src/types.ts. -/
structure ClaudeNotifyConfig where
  enabled : Bool
  volume : ℚ
  cooldown : ℚ
  notifications : NotificationsMap
deriving Repr, DecidableEq

/-- JavaScript `s || d` for an optional string (`undefined` and `""` are
falsy, every other string is kept). -/
def jsOrOpt (v : Option String) (d : String) : String :=
  match v with
  | none => d
  | some s => if s = "" then d else s

/-- `type.replace(/_/g, ' ')`. -/
def underscoreToSpace (s : String) : String :=
  ⟨s.data.map (fun c => if c = '_' then ' ' else c)⟩

/-! ## Script generators (src/services/HookService.ts, lines 387–608)

The TypeScript builds the script text with template literals; here each
template is the same text as explicit `++` of its literal parts and
interpolated expressions. -/

/-- One `case` arm of the main notification script (the loop body of
`generateScript`, lines 434–464). -/
def scriptCase (ty : String) (setting : NotificationSetting) : String :=
  if setting.enabled = false then
    "    " ++ ty ++ ")\n        # Disabled\n        ;;\n"
  else if setting.mode = "talk" then
    let voice := escapeForBash (jsOrOpt setting.voice "Ava")
    let text := escapeForBash (jsOrOpt setting.text (underscoreToSpace ty))
    "    " ++ ty ++ ")\n        (\n            TMPFILE=\"/tmp/claude-notify-$$.aiff\"\n            " ++
    ("say -v \"" ++ voice ++ "\" -o \"$TMPFILE\" \"" ++ text ++ "\"") ++
    "\n            afplay -v $VOLUME \"$TMPFILE\"\n            rm -f \"$TMPFILE\" 2>/dev/null\n        ) &\n        ;;\n"
  else
    let sound := sanitizeSoundName (jsOrOpt setting.sound "Glass")
    "    " ++ ty ++ ")\n        afplay -v $VOLUME \"/System/Library/Sounds/" ++ sound ++
    ".aiff\" &\n        ;;\n"

/-- `HookService.generateScript` (lines 387–475): the main notification
script, dispatching on the `notification_type` read from stdin. -/
def generateScript (config : ClaudeNotifyConfig) : String :=
  let volume := clampNumber config.volume 0 100 70
  let volumeDecimal := volume / 100
  let cooldown := clampNumber config.cooldown 0 30 3
  "#!/bin/bash\n# Claude Code Notify - Auto-generated script\n# Do not edit manually, changes will be overwritten\n\n# ============ CONFIG ============\nENABLED=\"" ++
  jsBoolStr (config.enabled == true) ++
  "\"\nVOLUME=\"" ++ jsNumToString volumeDecimal ++
  "\"\nCOOLDOWN=\"" ++ jsNumToString cooldown ++
  "\"\n# ================================\n\n# Exit if disabled\nif [[ \"$ENABLED\" != \"true\" ]]; then\n    exit 0\nfi\n\n# Cooldown check\nLOCKFILE=\"/tmp/claude-notify.lock\"\nif [[ -f \"$LOCKFILE\" && \"$COOLDOWN\" -gt 0 ]]; then\n    LAST=$(cat \"$LOCKFILE\" 2>/dev/null || echo 0)\n    NOW=$(date +%s)\n    if (( NOW - LAST < COOLDOWN )); then\n        exit 0\n    fi\nfi\necho $(date +%s) > \"$LOCKFILE\"\n\n# Read notification type from stdin\nINPUT=$(cat)\nTYPE=$(echo \"$INPUT\" | grep -o '\"notification_type\"[[:space:]]*:[[:space:]]*\"[^\"]*\"' | sed 's/.*: *\"//' | sed 's/\"//')\n\n# Play notification based on type\ncase \"$TYPE\" in\n" ++
  scriptCase "permission_prompt" config.notifications.permission_prompt ++
  scriptCase "idle_prompt" config.notifications.idle_prompt ++
  scriptCase "elicitation_dialog" config.notifications.elicitation_dialog ++
  "    *)\n        # Unknown notification type, ignore\n        ;;\nesac\n\nexit 0\n"

/-- `HookService.generatePermissionScript` (lines 482–542): the
`PermissionRequest` hook script, specialised to `permission_prompt`. -/
def generatePermissionScript (config : ClaudeNotifyConfig) : String :=
  let volume := clampNumber config.volume 0 100 70
  let volumeDecimal := volume / 100
  let cooldown := clampNumber config.cooldown 0 30 3
  let setting := config.notifications.permission_prompt
  "#!/bin/bash\n# Claude Code Notify - PermissionRequest Hook Script (Auto-generated)\n# Do not edit manually, changes will be overwritten\n# This script runs when Claude needs permission in VSCode IDE\n\n# ============ CONFIG ============\nENABLED=\"" ++
  jsBoolStr (config.enabled == true) ++
  "\"\nPERMISSION_PROMPT_ENABLED=\"" ++ jsBoolStr (setting.enabled == true) ++
  "\"\nVOLUME=\"" ++ jsNumToString volumeDecimal ++
  "\"\nCOOLDOWN=\"" ++ jsNumToString cooldown ++
  "\"\n# ================================\n\n# Exit if disabled globally or permission_prompt is disabled\nif [[ \"$ENABLED\" != \"true\" || \"$PERMISSION_PROMPT_ENABLED\" != \"true\" ]]; then\n    exit 0\nfi\n\n# Cooldown check (use separate lockfile to not interfere with other hooks)\nLOCKFILE=\"/tmp/claude-notify-permission.lock\"\nif [[ -f \"$LOCKFILE\" && \"$COOLDOWN\" -gt 0 ]]; then\n    LAST=$(cat \"$LOCKFILE\" 2>/dev/null || echo 0)\n    NOW=$(date +%s)\n    if (( NOW - LAST < COOLDOWN )); then\n        exit 0\n    fi\nfi\necho $(date +%s) > \"$LOCKFILE\"\n\n# Play notification\n" ++
  (if setting.mode = "talk" then
    let voice := escapeForBash (jsOrOpt setting.voice "Ava")
    let text := escapeForBash (jsOrOpt setting.text "Permission required")
    "(\n    TMPFILE=\"/tmp/claude-notify-permission-$$.aiff\"\n    " ++
    ("say -v \"" ++ voice ++ "\" -o \"$TMPFILE\" \"" ++ text ++ "\"") ++
    "\n    afplay -v $VOLUME \"$TMPFILE\"\n    rm -f \"$TMPFILE\" 2>/dev/null\n) &\n"
  else
    let sound := sanitizeSoundName (jsOrOpt setting.sound "Glass")
    "afplay -v $VOLUME \"/System/Library/Sounds/" ++ sound ++ ".aiff\" &\n") ++
  "\nexit 0\n"

/-- `HookService.generateStopScript` (lines 548–608): the `Stop` hook
script, specialised to `response_complete`. -/
def generateStopScript (config : ClaudeNotifyConfig) : String :=
  let volume := clampNumber config.volume 0 100 70
  let volumeDecimal := volume / 100
  let cooldown := clampNumber config.cooldown 0 30 3
  let setting := config.notifications.response_complete
  "#!/bin/bash\n# Claude Code Notify - Stop Hook Script (Auto-generated)\n# Do not edit manually, changes will be overwritten\n# This script runs when Claude finishes a response\n\n# ============ CONFIG ============\nENABLED=\"" ++
  jsBoolStr (config.enabled == true) ++
  "\"\nRESPONSE_COMPLETE_ENABLED=\"" ++ jsBoolStr (setting.enabled == true) ++
  "\"\nVOLUME=\"" ++ jsNumToString volumeDecimal ++
  "\"\nCOOLDOWN=\"" ++ jsNumToString cooldown ++
  "\"\n# ================================\n\n# Exit if disabled globally or response_complete is disabled\nif [[ \"$ENABLED\" != \"true\" || \"$RESPONSE_COMPLETE_ENABLED\" != \"true\" ]]; then\n    exit 0\nfi\n\n# Cooldown check (use separate lockfile to not interfere with notification hook)\nLOCKFILE=\"/tmp/claude-notify-stop.lock\"\nif [[ -f \"$LOCKFILE\" && \"$COOLDOWN\" -gt 0 ]]; then\n    LAST=$(cat \"$LOCKFILE\" 2>/dev/null || echo 0)\n    NOW=$(date +%s)\n    if (( NOW - LAST < COOLDOWN )); then\n        exit 0\n    fi\nfi\necho $(date +%s) > \"$LOCKFILE\"\n\n# Play notification\n" ++
  (if setting.mode = "talk" then
    let voice := escapeForBash (jsOrOpt setting.voice "Ava")
    let text := escapeForBash (jsOrOpt setting.text "Response ready")
    "(\n    TMPFILE=\"/tmp/claude-notify-stop-$$.aiff\"\n    " ++
    ("say -v \"" ++ voice ++ "\" -o \"$TMPFILE\" \"" ++ text ++ "\"") ++
    "\n    afplay -v $VOLUME \"$TMPFILE\"\n    rm -f \"$TMPFILE\" 2>/dev/null\n) &\n"
  else
    let sound := sanitizeSoundName (jsOrOpt setting.sound "Glass")
    "afplay -v $VOLUME \"/System/Library/Sounds/" ++ sound ++ ".aiff\" &\n") ++
  "\nexit 0\n"

/-! ## `ConfigService` (src/services/ConfigService.ts) -/

/-- Index/value pairs of an array for object spread. -/
def indexedFields : Nat → List JSVal → List (String × JSVal)
  | _, [] => []
  | i, v :: rest => (toString i, v) :: indexedFields (i + 1) rest

/-- Index/character pairs of a string for object spread. -/
def indexedStrFields : Nat → List Char → List (String × JSVal)
  | _, [] => []
  | i, c :: rest => (toString i, .str (String.singleton c)) :: indexedStrFields (i + 1) rest

/-- The own enumerable properties contributed by `{...v}`: an object's
fields, a string's or array's indexed elements, nothing for primitives and
nullish values. -/
def spreadFields : JSVal → List (String × JSVal)
  | .obj fs => fs
  | .arr xs => indexedFields 0 xs
  | .str s => indexedStrFields 0 s.data
  | _ => []

/-- JavaScript object spread `{...a, ...b}` on field lists: `a`'s keys in
order with values overridden by `b` where `b` has the key, then `b`'s new
keys appended in order (JS objects hold no duplicate keys). -/
def objSpread2 (a b : List (String × JSVal)) : List (String × JSVal) :=
  a.map (fun p => match b.find? (fun q => q.1 == p.1) with
                  | some q => (p.1, q.2)
                  | none => p) ++
  b.filter (fun q => !(a.any (fun p => p.1 == q.1)))

/-- `ConfigService.mergeWithDefaults` (lines 39–63): `??`-defaults for the
three top-level scalars and object spread over each of the four per-kind
defaults. -/
def mergeWithDefaults (partial_ : JSVal) : JSVal :=
  let defaults := getField DEFAULT_CONFIG_JS "notifications"
  let mergeKind := fun (kind : String) =>
    JSVal.obj (objSpread2 (spreadFields (getField defaults kind))
                          (spreadFields (getFieldOpt (getField partial_ "notifications") kind)))
  .obj [
    ("enabled", jsNullishOr (getField partial_ "enabled") (getField DEFAULT_CONFIG_JS "enabled")),
    ("volume", jsNullishOr (getField partial_ "volume") (getField DEFAULT_CONFIG_JS "volume")),
    ("cooldown", jsNullishOr (getField partial_ "cooldown") (getField DEFAULT_CONFIG_JS "cooldown")),
    ("notifications", .obj [
      ("permission_prompt", mergeKind "permission_prompt"),
      ("idle_prompt", mergeKind "idle_prompt"),
      ("elicitation_dialog", mergeKind "elicitation_dialog"),
      ("response_complete", mergeKind "response_complete")])]

/-- JavaScript ToString for the property key `parsed.currentProfile`
(primitives only; composite keys do not occur in config documents). -/
def jsPropKey : JSVal → String
  | .str s => s
  | .num q => jsNumToString q
  | .bool b => jsBoolStr b
  | .null => "null"
  | .undefined => "undefined"
  | .arr _ => ""
  | .obj _ => "[object Object]"

/-- `ConfigService.load` (lines 13–31) applied to the parsed JSON document:
detect the legacy `{profiles, currentProfile}` shape and migrate it
(extracting the current profile, defaulting to `DEFAULT_CONFIG`), otherwise
merge the flat document with defaults. (The filesystem read, the JSON text
codec and the `catch` returning `DEFAULT_CONFIG` are outside this model;
`save` writes `JSON.stringify` of its argument, so a reloaded document is
the saved value itself.) -/
def loadParsed (parsed : JSVal) : JSVal :=
  if truthy (getField parsed "profiles") && truthy (getField parsed "currentProfile") then
    let config := jsOr (getField (getField parsed "profiles") (jsPropKey (getField parsed "currentProfile")))
                       DEFAULT_CONFIG_JS
    mergeWithDefaults config
  else
    mergeWithDefaults parsed

/-- The runtime JSON value of a typed `NotificationSetting` (absent optional
keys are omitted, exactly as `JSON.stringify` omits `undefined` members). -/
def settingToJS (s : NotificationSetting) : JSVal :=
  .obj ([("enabled", .bool s.enabled), ("mode", .str s.mode)] ++
        (match s.voice with | some v => [("voice", .str v)] | none => []) ++
        (match s.text with | some t => [("text", .str t)] | none => []) ++
        (match s.sound with | some snd => [("sound", .str snd)] | none => []))

/-- The runtime JSON value of a typed `ClaudeNotifyConfig` — the document
`ConfigService.save` serialises and `load` parses back. -/
def configToJS (c : ClaudeNotifyConfig) : JSVal :=
  .obj [
    ("enabled", .bool c.enabled),
    ("volume", .num c.volume),
    ("cooldown", .num c.cooldown),
    ("notifications", .obj [
      ("permission_prompt", settingToJS c.notifications.permission_prompt),
      ("idle_prompt", settingToJS c.notifications.idle_prompt),
      ("elicitation_dialog", settingToJS c.notifications.elicitation_dialog),
      ("response_complete", settingToJS c.notifications.response_complete)])]

/-! ## The shared settings document (`HookService` install/remove)

The three script paths are `path.join(os.homedir(), '.claude', 'hooks', ...)`;
the model is parametric in the home directory. The settings document is typed
by the `ClaudeSettings` interface of src/types.ts: a `hooks` object mapping
hook-event names to arrays of matchers, plus opaque other top-level keys. -/

/-- `this.scriptPath` (`~/.claude/hooks/notify.sh`). -/
def scriptPath (home : String) : String := home ++ "/.claude/hooks/notify.sh"

/-- `this.stopScriptPath` (`~/.claude/hooks/stop-notify.sh`). -/
def stopScriptPath (home : String) : String := home ++ "/.claude/hooks/stop-notify.sh"

/-- `this.permissionScriptPath` (`~/.claude/hooks/permission-notify.sh`). -/
def permissionScriptPath (home : String) : String := home ++ "/.claude/hooks/permission-notify.sh"

/-- `ClaudeHookEntry` of src/types.ts. -/
structure ClaudeHookEntry where
  type : String
  command : String
deriving Repr, DecidableEq

/-- `ClaudeHookMatcher` of src/types.ts. -/
structure ClaudeHookMatcher where
  matcher : String
  hooks : List ClaudeHookEntry
deriving Repr, DecidableEq

/-- The `hooks` object: hook-event name to matcher array, in insertion
order. -/
abbrev HooksObj : Type := List (String × List ClaudeHookMatcher)

/-- `ClaudeSettings` of src/types.ts: the optional `hooks` object plus the
other top-level entries (`[key: string]: unknown`), which this system never
reads or writes. -/
structure ClaudeSettings where
  hooks : Option HooksObj
  extra : List (String × String)
deriving DecidableEq

/-- Read a hook-event key of the `hooks` object (`settings.hooks.X`). -/
def hGet (h : HooksObj) (k : String) : Option (List ClaudeHookMatcher) :=
  match h.find? (fun p => p.1 == k) with
  | some p => some p.2
  | none => none

/-- Assign a hook-event key (`settings.hooks.X = v`): update in place when
present, else append (JS object assignment preserves insertion order). -/
def hSet (h : HooksObj) (k : String) (v : List ClaudeHookMatcher) : HooksObj :=
  if h.any (fun p => p.1 == k) then
    h.map (fun p => if p.1 == k then (k, v) else p)
  else
    h ++ [(k, v)]

/-- `delete settings.hooks.X`. -/
def hDel (h : HooksObj) (k : String) : HooksObj :=
  h.filter (fun p => !(p.1 == k))

/-- `HookService.isOurNotificationHook` (lines 178–180): exact command-path
match against the main script path. -/
def isOurNotificationHook (home : String) (hook : ClaudeHookMatcher) : Bool :=
  hook.hooks.any (fun hk => hk.command == scriptPath home)

/-- `HookService.isOurStopHook` (lines 185–187). -/
def isOurStopHook (home : String) (hook : ClaudeHookMatcher) : Bool :=
  hook.hooks.any (fun hk => hk.command == stopScriptPath home)

/-- `HookService.isOurPermissionHook` (lines 192–194). -/
def isOurPermissionHook (home : String) (hook : ClaudeHookMatcher) : Bool :=
  hook.hooks.any (fun hk => hk.command == permissionScriptPath home)

/-- A matcher owned by this system under any of the three script paths. -/
def isOurAnyHook (home : String) (hook : ClaudeHookMatcher) : Bool :=
  isOurNotificationHook home hook || isOurStopHook home hook || isOurPermissionHook home hook

/-- The `notifyHook` matcher appended by `install` (lines 260–268). -/
def notifyHook (home : String) : ClaudeHookMatcher :=
  ⟨"permission_prompt|idle_prompt|elicitation_dialog", [⟨"command", scriptPath home⟩]⟩

/-- The `permissionHook` matcher appended by `install` (lines 275–283). -/
def permissionHook (home : String) : ClaudeHookMatcher :=
  ⟨"*", [⟨"command", permissionScriptPath home⟩]⟩

/-- The `stopHook` matcher appended by `install` (lines 289–297). -/
def stopHook (home : String) : ClaudeHookMatcher :=
  ⟨"*", [⟨"command", stopScriptPath home⟩]⟩

/-- `if (settings.hooks.X) { settings.hooks.X = settings.hooks.X.filter(h => !pred(h)) }`
(the three guarded filters of `install`, lines 242–256; an array, even empty,
is truthy, an absent key is not). -/
def filterKey (h : HooksObj) (k : String) (pred : ClaudeHookMatcher → Bool) : HooksObj :=
  match hGet h k with
  | some l => hSet h k (l.filter (fun m => !pred m))
  | none => h

/-- `settings.hooks.X = settings.hooks.X || []; settings.hooks.X.push(m)`
(lines 270–271, 285–286, 299–300). -/
def appendKey (h : HooksObj) (k : String) (m : ClaudeHookMatcher) : HooksObj :=
  hSet h k ((hGet h k).getD [] ++ [m])

/-- The settings-document mutation of `HookService.install` (lines 236–305,
the critical section under the lock): remove our hooks by exact path from
the three event keys, then append one fresh matcher per key. -/
def installSettings (home : String) (s : ClaudeSettings) : ClaudeSettings :=
  let h0 := s.hooks.getD []
  let h1 := filterKey h0 "Notification" (isOurNotificationHook home)
  let h2 := filterKey h1 "Stop" (isOurStopHook home)
  let h3 := filterKey h2 "PermissionRequest" (isOurPermissionHook home)
  let h4 := appendKey h3 "Notification" (notifyHook home)
  let h5 := appendKey h4 "PermissionRequest" (permissionHook home)
  let h6 := appendKey h5 "Stop" (stopHook home)
  { s with hooks := some h6 }

/-- One removal step of `HookService.remove` (lines 315–342): filter our
matchers out of the key, then delete the key if its array became empty. -/
def removeKey (h : HooksObj) (k : String) (pred : ClaudeHookMatcher → Bool) : HooksObj :=
  match hGet h k with
  | some l =>
    let l' := l.filter (fun m => !pred m)
    let h' := hSet h k l'
    if l' = [] then hDel h' k else h'
  | none => h

/-- The settings-document mutation of `HookService.remove` (lines 308–351):
strip our matchers from the three event keys, delete emptied keys, and
delete the `hooks` container itself when it ends up empty. -/
def removeSettings (home : String) (s : ClaudeSettings) : ClaudeSettings :=
  match s.hooks with
  | none => s
  | some h0 =>
    let h1 := removeKey h0 "Notification" (isOurNotificationHook home)
    let h2 := removeKey h1 "Stop" (isOurStopHook home)
    let h3 := removeKey h2 "PermissionRequest" (isOurPermissionHook home)
    if h3 = [] then { s with hooks := none }
    else { s with hooks := some h3 }

/-- The settings-document part of `HookService.isInstalled` (lines 196–213):
the `Notification` array exists and contains a matcher with an exact-path
match to the main script. (The check that the script file itself exists is a
filesystem conjunct outside the document model; `remove` also deletes the
script files, so the modelled conjunct is the stronger one for the claim.) -/
def isInstalledSettings (home : String) (s : ClaudeSettings) : Bool :=
  match s.hooks with
  | none => false
  | some h =>
    match hGet h "Notification" with
    | none => false
    | some l => l.any (fun m => isOurNotificationHook home m)

/-- Read one hook-event key of a settings document (`settings.hooks?.X`). -/
def hGetEvent (s : ClaudeSettings) (k : String) : Option (List ClaudeHookMatcher) :=
  match s.hooks with
  | none => none
  | some h => hGet h k

/-- The matcher array at one hook-event key (empty when absent). -/
def eventList (s : ClaudeSettings) (k : String) : List ClaudeHookMatcher :=
  (hGetEvent s k).getD []

/-! ## The settings lock (`HookService.acquireSettingsLock`, lines 125–162)

A deterministic single-competitor model: at acquisition start the lockfile
either is absent or exists with a fixed modification time `mtime` and no
other process creates or refreshes it afterwards. One loop iteration at
wall-clock time `now`: the exclusive create succeeds iff the lockfile is
absent; otherwise, if the lock's age exceeds the 30 000 ms staleness
threshold it is unlinked and the loop continues immediately (no sleep);
otherwise, if more than `timeoutMs` has elapsed since `start` the timeout
error is raised; otherwise the process sleeps `retryInterval = 100` ms and
retries. `fuel` bounds the iterations (the loop itself terminates: every
sleeping iteration moves `now` toward the timeout). On success the result
carries the time at which the lock was acquired. -/

/-- The message of the `Error` thrown on lock timeout (line 155). -/
def lockTimeoutMsg : String :=
  "Timeout waiting for settings.json lock. Another process may be modifying Claude settings."

/-- The `acquireSettingsLock` retry loop in the static-lockfile world. -/
def acquireRun : Nat → Int → Int → Int → Int → Bool → Except String Int
  | 0, _, _, _, _, _ => .error "fuel exhausted"
  | fuel + 1, timeoutMs, mtime, start, now, lockExists =>
    if lockExists = false then .ok now
    else if now - mtime > 30000 then acquireRun fuel timeoutMs mtime start now false
    else if now - start > timeoutMs then .error lockTimeoutMsg
    else acquireRun fuel timeoutMs mtime start (now + 100) true

/-! ## Example documents used by concrete theorems -/

/-- A legacy profile-shaped config document with a flat `volume` key
alongside (exercises the migration branch of `load`). -/
def legacyDoc : JSVal :=
  .obj [("profiles", .obj [("a", .obj [])]), ("currentProfile", .str "a"),
        ("volume", .str "loud")]

/-- A flat parsed config document with wrong-typed top-level scalars and a
`permission_prompt` object whose `voice` key is present but `undefined`. -/
def mergeExampleDoc : JSVal :=
  .obj [("enabled", .str "yes"), ("volume", .str "loud"), ("cooldown", .bool true),
        ("notifications", .obj [("permission_prompt", .obj [("voice", .undefined)])])]

/-- A matcher owned by another tool (the spec's frame scenario). -/
def thirdPartyMatcher : ClaudeHookMatcher :=
  ⟨"x", [⟨"command", "/other/tool.sh"⟩]⟩

/-- A settings document holding only the third-party matcher under
`Notification` (the spec's frame scenario document). -/
def settingsWithThirdParty : ClaudeSettings :=
  ⟨some [("Notification", [thirdPartyMatcher])], []⟩

/-- The ownership predicate `remove` uses at each of its three keys. -/
def ourPredOf (home : String) (k : String) : ClaudeHookMatcher → Bool :=
  if k = "Notification" then isOurNotificationHook home
  else if k = "Stop" then isOurStopHook home
  else if k = "PermissionRequest" then isOurPermissionHook home
  else fun _ => false

/-- The escaped-form relation as the spec words it: the output is the input
with each occurrence of one of the five escaped characters preceded by
exactly one inserted backslash, every other character copied unchanged.
(Spec-side definition, to be compared against `escapeForBash`.) -/
inductive EscapedBash : List Char → List Char → Prop where
  | nil : EscapedBash [] []
  | special {c : Char} {cs ts : List Char} : isBashSpecial c = true →
      EscapedBash cs ts → EscapedBash (c :: cs) ('\\' :: c :: ts)
  | plain {c : Char} {cs ts : List Char} : isBashSpecial c = false →
      EscapedBash cs ts → EscapedBash (c :: cs) (c :: ts)

/-- Scanner for the body of a POSIX-shell double-quoted string: consume
characters until the closing unescaped `"` and return what follows it
(`none` when the literal never closes). A backslash always consumes the
next character; for quote-termination purposes this agrees with shell
double-quote lexing. -/
def dqScan : List Char → Option (List Char)
  | [] => none
  | c :: cs =>
    if c = '\"' then some cs
    else if c = '\\' then
      match cs with
      | [] => none
      | _ :: cs2 => dqScan cs2
    else dqScan cs

/-- A talk-mode per-kind setting with the given voice and text. -/
def talkSetting (v t : String) : NotificationSetting :=
  ⟨true, "talk", some v, some t, none⟩

/-- A validated configuration in talk mode for all four kinds, with the
given voice and text and default volume/cooldown. -/
def talkConfig (v t : String) : ClaudeNotifyConfig :=
  ⟨true, 70, 3, ⟨talkSetting v t, talkSetting v t, talkSetting v t, talkSetting v t⟩⟩

/-- The spec scenario configuration: volume 150, cooldown -1, other fields
well-formed. -/
def cfg9 : ClaudeNotifyConfig :=
  ⟨true, 150, -1,
   ⟨talkSetting "Ava (Premium)" "Permission required",
    talkSetting "Ava (Premium)" "Done",
    talkSetting "Ava (Premium)" "Input needed",
    talkSetting "Ava (Premium)" "Response ready"⟩⟩

/-! # Theorems -/

/-! ## C1 — `validateConfig` output typing -/

/-- A conditional whose branches both satisfy a predicate satisfies it. -/
theorem pred_ite (p : JSVal → Bool) (c : Prop) [Decidable c] {x d : JSVal}
    (h1 : c → p x = true) (hd : p d = true) : p (if c then x else d) = true := by
  split
  · exact h1 (by assumption)
  · exact hd

/-- Field reads of a validated setting (definitional). -/
theorem getField_validateSetting_enabled (setting defS : JSVal) :
    getField (validateSetting setting defS) "enabled" =
      if isBoolV (getFieldOpt setting "enabled") then getFieldOpt setting "enabled"
      else getField defS "enabled" := rfl

theorem getField_validateSetting_mode (setting defS : JSVal) :
    getField (validateSetting setting defS) "mode" =
      if isStrEq (getFieldOpt setting "mode") "talk" || isStrEq (getFieldOpt setting "mode") "sound"
      then getFieldOpt setting "mode" else getField defS "mode" := rfl

theorem getField_validateSetting_voice (setting defS : JSVal) :
    getField (validateSetting setting defS) "voice" =
      if isStrV (getFieldOpt setting "voice") then getFieldOpt setting "voice"
      else getField defS "voice" := rfl

theorem getField_validateSetting_text (setting defS : JSVal) :
    getField (validateSetting setting defS) "text" =
      if isStrV (getFieldOpt setting "text") then getFieldOpt setting "text"
      else getField defS "text" := rfl

theorem getField_validateSetting_sound (setting defS : JSVal) :
    getField (validateSetting setting defS) "sound" =
      if isStrV (getFieldOpt setting "sound") then getFieldOpt setting "sound"
      else getField defS "sound" := rfl

/-- Any input and any per-kind default whose fields are well typed (with
`sound` possibly `undefined`) validate to a well-typed setting. -/
theorem validateSetting_wt (setting defS : JSVal)
    (h1 : isBoolV (getField defS "enabled") = true)
    (h2 : isTalkOrSound (getField defS "mode") = true)
    (h3 : isStrV (getField defS "voice") = true)
    (h4 : isStrV (getField defS "text") = true)
    (h5 : (isStrV (getField defS "sound") || isUndefV (getField defS "sound")) = true) :
    wellTypedSettingAmended (validateSetting setting defS) = true := by
  unfold wellTypedSettingAmended
  rw [getField_validateSetting_enabled, getField_validateSetting_mode,
      getField_validateSetting_voice, getField_validateSetting_text,
      getField_validateSetting_sound]
  simp only [Bool.and_eq_true]
  refine ⟨⟨⟨⟨?_, ?_⟩, ?_⟩, ?_⟩, ?_⟩
  · exact pred_ite isBoolV _ (fun h => h) h1
  · exact pred_ite isTalkOrSound _ (fun h => by unfold isTalkOrSound; exact h) h2
  · exact pred_ite isStrV _ (fun h => h) h3
  · exact pred_ite isStrV _ (fun h => h) h4
  · exact pred_ite (fun v => isStrV v || isUndefV v) _ (fun h => by simp [h]) h5

/-- Typing of an explicitly assembled configuration object from typings of
its members. -/
theorem wellTypedConfigAmended_mk (E V C p i e r : JSVal)
    (hE : isBoolV E = true) (hV : isNumV V = true) (hC : isNumV C = true)
    (hp : wellTypedSettingAmended p = true) (hi : wellTypedSettingAmended i = true)
    (he : wellTypedSettingAmended e = true) (hr : wellTypedSettingAmended r = true) :
    wellTypedConfigAmended (.obj [("enabled", E), ("volume", V), ("cooldown", C),
      ("notifications", .obj [("permission_prompt", p), ("idle_prompt", i),
        ("elicitation_dialog", e), ("response_complete", r)])]) = true := by
  unfold wellTypedConfigAmended
  simp [getField, getFields, hE, hV, hC, hp, hi, he, hr]

/-- C1, counterexample: the claim says the validated `sound` fields are
strings, but validating `null` returns `DEFAULT_CONFIG`, whose
`permission_prompt.sound` is `undefined` (the defaults carry no sound), so
the claim's typing predicate fails. -/
theorem validateConfig_claim_counterexample :
    wellTypedConfigClaim (validateConfig JSVal.null) = false := by decide

/-- C1 (amended): for every input value, `validateConfig` returns a
configuration in which `enabled` is a boolean, `volume` and `cooldown` are
numbers, and each of the four notification settings has a boolean `enabled`,
a `mode` that is exactly `'talk'` or `'sound'`, string `voice` and `text`,
and a `sound` that is a string or `undefined` (a missing or wrong-typed
`sound` inherits the defaults' absent sound). -/
theorem validateConfig_wellTyped (v : JSVal) :
    wellTypedConfigAmended (validateConfig v) = true := by
  unfold validateConfig
  split
  · decide
  · exact wellTypedConfigAmended_mk _ _ _ _ _ _ _
      (pred_ite isBoolV _ (fun h => h) (by decide))
      (pred_ite isNumV _ (fun h => h) (by decide))
      (pred_ite isNumV _ (fun h => h) (by decide))
      (validateSetting_wt _ _ (by decide) (by decide) (by decide) (by decide) (by decide))
      (validateSetting_wt _ _ (by decide) (by decide) (by decide) (by decide) (by decide))
      (validateSetting_wt _ _ (by decide) (by decide) (by decide) (by decide) (by decide))
      (validateSetting_wt _ _ (by decide) (by decide) (by decide) (by decide) (by decide))

/-! ## C2 — `sanitizeSoundName` -/

/-- C2, counterexample: the tab character is kept by the code's `\s` class
but is not in the claimed set `[A-Za-z0-9 _-]`: a lone tab sanitizes to
itself (it is not stripped and the result is nonempty), so the output
contains a character outside the claimed set, and an input with zero
claimed-set characters does not fall back to `"Glass"`. -/
theorem sanitizeSoundName_claim_counterexample :
    (sanitizeSoundName "\t").data.all claimedSoundChar = false ∧
    "\t".data.filter claimedSoundChar = [] ∧ sanitizeSoundName "\t" ≠ "Glass" := by
  decide

/-- C2 (amended): for every input string, `sanitizeSoundName` returns a
string containing only ASCII alphanumerics, hyphen, underscore, and
JavaScript `\s` whitespace characters (the code keeps the whole `\s` class,
not just the space character); if stripping by that class leaves zero
characters, the result is exactly `"Glass"`. -/
theorem sanitizeSoundName_sanitizes (s : String) :
    (sanitizeSoundName s).data.all keepSound = true ∧
    (s.data.filter keepSound = [] → sanitizeSoundName s = "Glass") := by
  constructor
  · unfold sanitizeSoundName
    dsimp only
    split
    · decide
    · simp only [List.all_eq_true]
      intro c hc
      exact List.of_mem_filter hc
  · intro h
    unfold sanitizeSoundName
    simp [h]

/-- Witness for C2: an all-punctuation input strips to empty and falls back
to `"Glass"`, which itself passes the sanitizer's character class. -/
theorem sanitizeSoundName_sanitizes_witness :
    (sanitizeSoundName "!!!").data.all keepSound = true ∧ sanitizeSoundName "!!!" = "Glass" :=
  ⟨(sanitizeSoundName_sanitizes "!!!").1, (sanitizeSoundName_sanitizes "!!!").2 (by decide)⟩

/-! ## C6 — the settings lock -/

/-- A stale lock (age over 30 s) is deleted and the lock is acquired on the
immediately following iteration, with no sleep in between. -/
theorem acquireRun_stale (fuel : Nat) (timeoutMs mtime start now : Int)
    (hstale : now - mtime > 30000) :
    acquireRun (fuel + 2) timeoutMs mtime start now true = .ok now := by
  rw [acquireRun]
  simp only [hstale]
  rw [acquireRun]
  simp

/-- While the lock stays fresh, the loop sleeps in 100 ms steps and raises
the timeout error once the elapsed time exceeds `timeoutMs`. -/
theorem acquireRun_timeout (fuel : Nat) : ∀ (timeoutMs mtime start now : Int),
    0 ≤ timeoutMs → start ≤ now → now - start ≤ timeoutMs + 100 →
    start + timeoutMs + 100 - mtime ≤ 30000 →
    (fuel : Int) * 100 ≥ timeoutMs - (now - start) + 200 →
    acquireRun fuel timeoutMs mtime start now true = .error lockTimeoutMsg := by
  induction fuel with
  | zero =>
    intro timeoutMs mtime start now h0 h1 h2 h3 hfuel
    exfalso
    simp only [Nat.cast_zero, zero_mul] at hfuel
    omega
  | succ n ih =>
    intro timeoutMs mtime start now h0 h1 h2 h3 hfuel
    rw [acquireRun]
    rw [if_neg (by decide : ¬(true = false))]
    have hns : ¬(now - mtime > 30000) := by omega
    rw [if_neg hns]
    by_cases hto : now - start > timeoutMs
    · rw [if_pos hto]
    · rw [if_neg hto]
      push_neg at hto
      have hfuel' : ((n : Int)) * 100 ≥ timeoutMs - (now + 100 - start) + 200 := by
        push_cast at hfuel
        omega
      exact ih timeoutMs mtime start (now + 100) h0 (by omega) (by omega) h3 hfuel' 

/-- C6: start acquisition at time `start` with the lockfile present and last
modified at `mtime` (and no other process interfering). If the lock's age
exceeds the 30 000 ms staleness threshold, the attempt deletes it and
acquires the lock immediately (at time `start`, with no sleep — far less
than the 5 000 ms default timeout). If instead the lock stays fresh for the
whole default 5 000 ms window (age at most 24 900 ms, so that it cannot turn
stale before the deadline), no acquisition succeeds within the bounded wait
and the loop raises the timeout error describing that another process may be
modifying the settings. Fuel 100 bounds the loop's iterations; at most 52
occur. -/
theorem acquireSettingsLock_behavior (mtime start : Int) :
    (start - mtime > 30000 → acquireRun 100 5000 mtime start start true = .ok start) ∧
    (start - mtime ≤ 24900 → acquireRun 100 5000 mtime start start true = .error lockTimeoutMsg) := by
  constructor
  · intro hstale
    have h100 : (100 : Nat) = 98 + 2 := rfl
    rw [h100]
    exact acquireRun_stale 98 5000 mtime start start (by omega)
  · intro hfresh
    apply acquireRun_timeout 100 5000 mtime start start (by norm_num) le_rfl (by omega) (by omega)
    push_cast
    omega

/-- Witness for C6: with the lock last touched at time 0, an attempt starting
at time 40 000 (stale by 10 s) acquires at once; an attempt starting at time
0 (fresh lock that stays fresh) times out with the documented error. -/
theorem acquireSettingsLock_behavior_witness :
    acquireRun 100 5000 0 40000 40000 true = .ok 40000 ∧
    acquireRun 100 5000 0 0 0 true = .error lockTimeoutMsg :=
  ⟨(acquireSettingsLock_behavior 0 40000).1 (by norm_num),
   (acquireSettingsLock_behavior 0 0).2 (by norm_num)⟩

/-! ## C8 — save/load round trip -/

/-- C8: loading the document that `save(cfg)` wrote (its JSON serialisation
parses back to the value itself: typed configs contain no `undefined` and no
`profiles`/`currentProfile` keys, so neither `JSON.stringify` dropping nor
the legacy migration applies) yields exactly `mergeWithDefaults(cfg)`. -/
theorem save_load_roundtrip (cfg : ClaudeNotifyConfig) :
    loadParsed (configToJS cfg) = mergeWithDefaults (configToJS cfg) := by
  have h : getField (configToJS cfg) "profiles" = JSVal.undefined := rfl
  unfold loadParsed
  rw [h]
  rfl

/-! ## C10 — `load`/`mergeWithDefaults` performs no type checking -/

/-- `getFields` through a characterisation by `find?`. -/
theorem getFields_eq_find? (b : List (String × JSVal)) (k : String) :
    getFields b k =
      match b.find? (fun q => q.1 == k) with
      | some q => q.2
      | none => .undefined := by
  induction b with
  | nil => rfl
  | cons q b' ih =>
    by_cases h : q.1 = k
    · rw [List.find?_cons_of_pos _ (by simp [h])]
      simp [getFields, h]
    · rw [List.find?_cons_of_neg _ (by simp [h])]
      simp only [getFields, if_neg h]
      exact ih

/-- Looking up a key held by the prefix of an append. -/
theorem getFields_append_left (xs ys : List (String × JSVal)) (k : String)
    (h : xs.any (fun p => p.1 == k) = true) :
    getFields (xs ++ ys) k = getFields xs k := by
  induction xs with
  | nil => simp at h
  | cons p xs' ih =>
    by_cases hp : p.1 = k
    · simp [getFields, hp]
    · simp only [List.any_cons, Bool.or_eq_true] at h
      rcases h with h | h
      · simp [beq_iff_eq, hp] at h
      · simp only [List.cons_append, getFields, if_neg hp]
        exact ih h

/-- Looking up a key absent from the prefix of an append. -/
theorem getFields_append_right (xs ys : List (String × JSVal)) (k : String)
    (h : xs.any (fun p => p.1 == k) = false) :
    getFields (xs ++ ys) k = getFields ys k := by
  induction xs with
  | nil => rfl
  | cons p xs' ih =>
    simp only [List.any_cons, Bool.or_eq_false_iff] at h
    have hp : ¬(p.1 = k) := by
      intro he
      simp [he] at h
    simp only [List.cons_append, getFields, if_neg hp]
    exact ih h.2

/-- The override map of `objSpread2` preserves every key. -/
theorem any_map_override (b : List (String × JSVal)) (a : List (String × JSVal)) (k : String) :
    (a.map (fun p => match b.find? (fun q => q.1 == p.1) with
                     | some q => (p.1, q.2)
                     | none => p)).any (fun p => p.1 == k) =
      a.any (fun p => p.1 == k) := by
  induction a with
  | nil => rfl
  | cons p a' ih =>
    cases hf : b.find? (fun q => q.1 == p.1) <;>
      simp [List.any_cons, hf, ih]

/-- When the key occurs both in `a` and in `b`, the overridden copy of `a`
looks up to `b`'s value. -/
theorem getFields_map_override (b : List (String × JSVal)) (k : String)
    (hb : b.any (fun q => q.1 == k) = true) :
    ∀ a : List (String × JSVal), a.any (fun p => p.1 == k) = true →
      getFields (a.map (fun p => match b.find? (fun q => q.1 == p.1) with
                                 | some q => (p.1, q.2)
                                 | none => p)) k = getFields b k := by
  intro a
  induction a with
  | nil => intro h; simp at h
  | cons p a' ih =>
    intro hcons
    by_cases hpk : p.1 = k
    · cases hf : b.find? (fun q => q.1 == p.1) with
      | none =>
        exfalso
        rw [List.find?_eq_none] at hf
        rcases List.any_eq_true.mp hb with ⟨q, hq, hqk⟩
        have h1 := hf q hq
        rw [hpk] at h1
        exact h1 hqk
      | some q =>
        simp only [List.map_cons, hf, getFields, if_pos hpk]
        rw [getFields_eq_find?, ← hpk, hf]
    · have ha' : a'.any (fun p => p.1 == k) = true := by
        simp only [List.any_cons, Bool.or_eq_true] at hcons
        rcases hcons with h | h
        · exact absurd (by simpa using h) hpk
        · exact h
      cases hf : b.find? (fun q => q.1 == p.1) <;>
        · simp only [List.map_cons, hf, getFields, if_neg hpk]
          exact ih ha'

/-- Filtering never drops a key-`k` entry when the filter accepts all of
them, as far as `getFields` at `k` can see. -/
theorem getFields_filter_key (b : List (String × JSVal)) (k : String)
    (g : String × JSVal → Bool) (hg : ∀ q, q.1 = k → g q = true) :
    getFields (b.filter g) k = getFields b k := by
  induction b with
  | nil => rfl
  | cons q b' ih =>
    by_cases hq : g q = true
    · rw [List.filter_cons_of_pos hq]
      by_cases hk' : q.1 = k <;> simp [getFields, hk', ih]
    · have hqk : ¬(q.1 = k) := fun he => hq (hg q he)
      rw [List.filter_cons_of_neg (by simpa using hq)]
      simp [getFields, hqk, ih]

/-- Spreading `{...a, ...b}` answers `b`'s value at every key `b` holds. -/
theorem getFields_objSpread2 (a b : List (String × JSVal)) (k : String)
    (hb : b.any (fun q => q.1 == k) = true) :
    getFields (objSpread2 a b) k = getFields b k := by
  unfold objSpread2
  by_cases ha : a.any (fun p => p.1 == k) = true
  · rw [getFields_append_left _ _ _ (by rw [any_map_override]; exact ha)]
    exact getFields_map_override b k hb a ha
  · rw [getFields_append_right _ _ _ (by rw [any_map_override]; exact (Bool.not_eq_true _).mp ha)]
    refine getFields_filter_key b k _ (fun q hq => ?_)
    have : a.any (fun p => p.1 == q.1) = false := by
      rw [hq]
      exact (Bool.not_eq_true _).mp ha
    simp [this]

/-- C10, counterexample: the claim quantifies over every parsed config
document, but a legacy profile-shaped document takes the migration branch of
`load`, so its flat string-valued `volume` is *not* returned verbatim (the
migrated profile's defaults win). -/
theorem load_verbatim_counterexample :
    getField (loadParsed legacyDoc) "volume" ≠ getField legacyDoc "volume" := by
  intro h
  have h1 : getField (loadParsed legacyDoc) "volume" = JSVal.num 70 := rfl
  have h2 : getField legacyDoc "volume" = JSVal.str "loud" := rfl
  rw [h1, h2] at h
  exact JSVal.noConfusion h

/-- C10 (amended): for every parsed config document that does not take the
legacy-profiles migration branch, `load` is exactly `mergeWithDefaults`, and
`mergeWithDefaults` performs no type checking: each top-level
`enabled`/`volume`/`cooldown` value is returned verbatim whatever its
runtime type unless it is `null`/`undefined`/absent (only then the default
is substituted), and in a per-kind setting object every present key — even
one whose value is `undefined` — overrides the default via object spread. -/
theorem load_merge_no_typecheck (d : JSVal) (fs : List (String × JSVal)) (key : String)
    (hm : (truthy (getField d "profiles") && truthy (getField d "currentProfile")) = false)
    (hk : getFieldOpt (getField d "notifications") "permission_prompt" = JSVal.obj fs)
    (hc : fs.any (fun q => q.1 == key) = true) :
    loadParsed d = mergeWithDefaults d ∧
    (getField (mergeWithDefaults d) "enabled" =
      if nullish (getField d "enabled") then JSVal.bool true else getField d "enabled") ∧
    (getField (mergeWithDefaults d) "volume" =
      if nullish (getField d "volume") then JSVal.num 70 else getField d "volume") ∧
    (getField (mergeWithDefaults d) "cooldown" =
      if nullish (getField d "cooldown") then JSVal.num 3 else getField d "cooldown") ∧
    getField (getField (getField (mergeWithDefaults d) "notifications") "permission_prompt") key =
      getFields fs key := by
  refine ⟨?_, rfl, rfl, rfl, ?_⟩
  · unfold loadParsed
    rw [if_neg]
    intro hcond
    rw [hm] at hcond
    exact Bool.false_ne_true hcond
  · have hread : getField (getField (getField (mergeWithDefaults d) "notifications") "permission_prompt") key =
        getFields (objSpread2
          (spreadFields (getField (getField DEFAULT_CONFIG_JS "notifications") "permission_prompt"))
          (spreadFields (getFieldOpt (getField d "notifications") "permission_prompt"))) key := rfl
    rw [hread, hk]
    exact getFields_objSpread2 _ fs key hc

/-- Witness for C10: a flat document with a string `enabled`, string
`volume`, boolean `cooldown`, and a `permission_prompt` whose `voice` key is
present with value `undefined` — all survive the merge verbatim. -/
theorem load_merge_no_typecheck_witness :
    loadParsed mergeExampleDoc = mergeWithDefaults mergeExampleDoc ∧
    (getField (mergeWithDefaults mergeExampleDoc) "enabled" =
      if nullish (getField mergeExampleDoc "enabled") then JSVal.bool true
      else getField mergeExampleDoc "enabled") ∧
    (getField (mergeWithDefaults mergeExampleDoc) "volume" =
      if nullish (getField mergeExampleDoc "volume") then JSVal.num 70
      else getField mergeExampleDoc "volume") ∧
    (getField (mergeWithDefaults mergeExampleDoc) "cooldown" =
      if nullish (getField mergeExampleDoc "cooldown") then JSVal.num 3
      else getField mergeExampleDoc "cooldown") ∧
    getField (getField (getField (mergeWithDefaults mergeExampleDoc) "notifications") "permission_prompt") "voice" =
      getFields [("voice", JSVal.undefined)] "voice" :=
  load_merge_no_typecheck mergeExampleDoc [("voice", JSVal.undefined)] "voice"
    (by decide) rfl (by decide)

/-! ## Lemmas on the `hooks`-object operations -/

/-- `hGet` on an empty object. -/
theorem hGet_nil (k : String) : hGet [] k = none := rfl

/-- `hGet` looks at the head key first. -/
theorem hGet_cons (p : String × List ClaudeHookMatcher) (t : HooksObj) (k : String) :
    hGet (p :: t) k = if p.1 = k then some p.2 else hGet t k := by
  by_cases hp : p.1 = k
  · simp [hGet, List.find?, hp]
  · simp only [hGet, List.find?]
    have hp' : (p.1 == k) = false := by simpa using hp
    simp [hp', hp]

/-- `hGet` over an append searches left first. -/
theorem hGet_append (xs ys : HooksObj) (k : String) :
    hGet (xs ++ ys) k =
      match hGet xs k with
      | some l => some l
      | none => hGet ys k := by
  induction xs with
  | nil => rfl
  | cons p xs' ih =>
    rw [List.cons_append, hGet_cons, hGet_cons]
    by_cases hp : p.1 = k <;> simp [hp, ih]

/-- A key reported absent by `any` is absent for `hGet`. -/
theorem hGet_eq_none_of_any_false (h : HooksObj) (k : String)
    (hany : h.any (fun p => p.1 == k) = false) : hGet h k = none := by
  induction h with
  | nil => rfl
  | cons p h' ih =>
    simp only [List.any_cons, Bool.or_eq_false_iff] at hany
    rw [hGet_cons, if_neg (by simpa using hany.1)]
    exact ih hany.2

/-- `hGet` after the in-place-update map of `hSet`. -/
theorem hGet_map_set (h : HooksObj) (k : String) (v : List ClaudeHookMatcher) (k' : String) :
    hGet (h.map (fun p => if p.1 == k then (k, v) else p)) k' =
      if k' = k then (if h.any (fun p => p.1 == k) then some v else none)
      else hGet h k' := by
  induction h with
  | nil => by_cases hk : k' = k <;> simp [hGet, hk]
  | cons p h' ih =>
    rw [List.map_cons]
    by_cases hpk : p.1 = k
    · rw [if_pos (by simpa using hpk), hGet_cons, hGet_cons]
      by_cases hk : k' = k
      · simp [hk, hpk]
      · have hkv : ¬((k, v).1 = k') := fun he => hk he.symm
        have hp2 : ¬(p.1 = k') := fun he => hk (hpk.symm.trans he).symm
        rw [if_neg hkv, ih, if_neg hk, if_neg hk, if_neg hp2]
    · rw [if_neg (by simpa using hpk), hGet_cons, hGet_cons]
      by_cases hpk2 : p.1 = k'
      · have hk : ¬(k' = k) := fun he => hpk (hpk2.trans he)
        simp [hpk2, hk]
      · simp only [if_neg hpk2, ih, List.any_cons]
        have hb : (p.1 == k) = false := by simpa using hpk
        by_cases hk : k' = k
        · rw [if_pos hk, if_pos hk]
          rcases Bool.eq_false_or_eq_true (h'.any fun p => p.1 == k) with hany | hany <;>
            simp [hany, hb]
        · simp [hk]

/-- Reading back through an assignment: the assigned key answers the new
value, every other key is untouched. -/
theorem hGet_hSet (h : HooksObj) (k : String) (v : List ClaudeHookMatcher) (k' : String) :
    hGet (hSet h k v) k' = if k' = k then some v else hGet h k' := by
  unfold hSet
  by_cases hany : h.any (fun p => p.1 == k) = true
  · rw [if_pos hany, hGet_map_set, hany]
    by_cases hk : k' = k <;> simp [hk]
  · have hany' : h.any (fun p => p.1 == k) = false := (Bool.not_eq_true _).mp hany
    rw [if_neg (by simp [hany']), hGet_append]
    by_cases hk : k' = k
    · rw [hk, hGet_eq_none_of_any_false h k hany']
      simp [hGet_cons]
    · rw [if_neg hk]
      cases hv : hGet h k' with
      | some l => rfl
      | none =>
        have hk2 : ¬(k = k') := fun he => hk he.symm
        simp [hGet_cons, hk2, hGet]

/-- Reading back through a deletion. -/
theorem hGet_hDel (h : HooksObj) (k k' : String) :
    hGet (hDel h k) k' = if k' = k then none else hGet h k' := by
  unfold hDel
  induction h with
  | nil => by_cases hk : k' = k <;> simp [hGet, hk]
  | cons p t ih =>
    by_cases hpk : p.1 = k
    · rw [List.filter_cons_of_neg (by simp [hpk])]
      rw [ih, hGet_cons]
      by_cases hk : k' = k
      · simp [hk]
      · have : ¬(p.1 = k') := fun he => hk ((hpk.symm.trans he).symm)
        simp [this]
    · rw [List.filter_cons_of_pos (by simp [hpk]), hGet_cons, hGet_cons, ih]
      by_cases hp' : p.1 = k'
      · have hk : ¬(k' = k) := fun he => hpk (hp'.trans he)
        simp [hp', hk]
      · simp [hp']

/-- `filterKey` at its own key filters the array (when present). -/
theorem hGet_filterKey_self (h : HooksObj) (k : String) (pred : ClaudeHookMatcher → Bool) :
    hGet (filterKey h k pred) k =
      (hGet h k).map (fun l => l.filter (fun m => !pred m)) := by
  unfold filterKey
  cases hv : hGet h k with
  | none => simp [hv]
  | some l => simp [hGet_hSet]

/-- `filterKey` leaves every other key untouched. -/
theorem hGet_filterKey_ne (h : HooksObj) (k : String) (pred : ClaudeHookMatcher → Bool)
    (k' : String) (hk : k' ≠ k) :
    hGet (filterKey h k pred) k' = hGet h k' := by
  unfold filterKey
  cases hv : hGet h k with
  | none => rfl
  | some l => simp [hGet_hSet, hk]

/-- `appendKey` at its own key appends the matcher. -/
theorem hGet_appendKey_self (h : HooksObj) (k : String) (m : ClaudeHookMatcher) :
    hGet (appendKey h k m) k = some ((hGet h k).getD [] ++ [m]) := by
  unfold appendKey
  simp [hGet_hSet]

/-- `appendKey` leaves every other key untouched. -/
theorem hGet_appendKey_ne (h : HooksObj) (k : String) (m : ClaudeHookMatcher)
    (k' : String) (hk : k' ≠ k) :
    hGet (appendKey h k m) k' = hGet h k' := by
  unfold appendKey
  simp [hGet_hSet, hk]

/-- `removeKey` at its own key: filter, and delete the key when the filtered
array is empty. -/
theorem hGet_removeKey_self (h : HooksObj) (k : String) (pred : ClaudeHookMatcher → Bool) :
    hGet (removeKey h k pred) k =
      match hGet h k with
      | none => none
      | some l =>
        if l.filter (fun m => !pred m) = [] then none
        else some (l.filter (fun m => !pred m)) := by
  unfold removeKey
  cases hv : hGet h k with
  | none => simp [hv]
  | some l =>
    dsimp only
    split
    · rename_i he
      simp [hGet_hDel, he]
    · rename_i he
      simp [hGet_hSet, he]

/-- `removeKey` leaves every other key untouched. -/
theorem hGet_removeKey_ne (h : HooksObj) (k : String) (pred : ClaudeHookMatcher → Bool)
    (k' : String) (hk : k' ≠ k) :
    hGet (removeKey h k pred) k' = hGet h k' := by
  unfold removeKey
  cases hv : hGet h k with
  | none => rfl
  | some l =>
    dsimp only
    split
    · simp [hGet_hDel, hGet_hSet, hk]
    · simp [hGet_hSet, hk]

/-! ## Characterising `install` and `remove` on the settings document -/

/-- After `install`, the `Notification` key holds the old array purged of our
notification matchers, with our fresh `notifyHook` appended. -/
theorem hGetEvent_install_notification (home : String) (s : ClaudeSettings) :
    hGetEvent (installSettings home s) "Notification" =
      some ((eventList s "Notification").filter (fun m => !isOurNotificationHook home m) ++
            [notifyHook home]) := by
  have e0 : hGet (s.hooks.getD []) "Notification" = hGetEvent s "Notification" := by
    unfold hGetEvent
    cases s.hooks <;> rfl
  show hGet (appendKey (appendKey (appendKey (filterKey (filterKey (filterKey (s.hooks.getD [])
      "Notification" (isOurNotificationHook home)) "Stop" (isOurStopHook home))
      "PermissionRequest" (isOurPermissionHook home)) "Notification" (notifyHook home))
      "PermissionRequest" (permissionHook home)) "Stop" (stopHook home)) "Notification" = _
  rw [hGet_appendKey_ne _ _ _ _ (by decide), hGet_appendKey_ne _ _ _ _ (by decide),
      hGet_appendKey_self,
      hGet_filterKey_ne _ _ _ _ (by decide), hGet_filterKey_ne _ _ _ _ (by decide),
      hGet_filterKey_self, e0]
  unfold eventList
  cases hGetEvent s "Notification" <;> rfl

/-- After `install`, the `Stop` key holds the old array purged of our stop
matchers, with our fresh `stopHook` appended. -/
theorem hGetEvent_install_stop (home : String) (s : ClaudeSettings) :
    hGetEvent (installSettings home s) "Stop" =
      some ((eventList s "Stop").filter (fun m => !isOurStopHook home m) ++
            [stopHook home]) := by
  have e0 : hGet (s.hooks.getD []) "Stop" = hGetEvent s "Stop" := by
    unfold hGetEvent
    cases s.hooks <;> rfl
  show hGet (appendKey (appendKey (appendKey (filterKey (filterKey (filterKey (s.hooks.getD [])
      "Notification" (isOurNotificationHook home)) "Stop" (isOurStopHook home))
      "PermissionRequest" (isOurPermissionHook home)) "Notification" (notifyHook home))
      "PermissionRequest" (permissionHook home)) "Stop" (stopHook home)) "Stop" = _
  rw [hGet_appendKey_self,
      hGet_appendKey_ne _ _ _ _ (by decide), hGet_appendKey_ne _ _ _ _ (by decide),
      hGet_filterKey_ne _ _ _ _ (by decide), hGet_filterKey_self,
      hGet_filterKey_ne _ _ _ _ (by decide), e0]
  unfold eventList
  cases hGetEvent s "Stop" <;> rfl

/-- After `install`, the `PermissionRequest` key holds the old array purged
of our permission matchers, with our fresh `permissionHook` appended. -/
theorem hGetEvent_install_permission (home : String) (s : ClaudeSettings) :
    hGetEvent (installSettings home s) "PermissionRequest" =
      some ((eventList s "PermissionRequest").filter (fun m => !isOurPermissionHook home m) ++
            [permissionHook home]) := by
  have e0 : hGet (s.hooks.getD []) "PermissionRequest" = hGetEvent s "PermissionRequest" := by
    unfold hGetEvent
    cases s.hooks <;> rfl
  show hGet (appendKey (appendKey (appendKey (filterKey (filterKey (filterKey (s.hooks.getD [])
      "Notification" (isOurNotificationHook home)) "Stop" (isOurStopHook home))
      "PermissionRequest" (isOurPermissionHook home)) "Notification" (notifyHook home))
      "PermissionRequest" (permissionHook home)) "Stop" (stopHook home)) "PermissionRequest" = _
  rw [hGet_appendKey_ne _ _ _ _ (by decide), hGet_appendKey_self,
      hGet_appendKey_ne _ _ _ _ (by decide),
      hGet_filterKey_self, hGet_filterKey_ne _ _ _ _ (by decide),
      hGet_filterKey_ne _ _ _ _ (by decide), e0]
  unfold eventList
  cases hGetEvent s "PermissionRequest" <;> rfl

/-- `install` touches no hook-event key other than the three it owns. -/
theorem hGetEvent_install_other (home : String) (s : ClaudeSettings) (k : String)
    (h1 : k ≠ "Notification") (h2 : k ≠ "Stop") (h3 : k ≠ "PermissionRequest") :
    hGetEvent (installSettings home s) k = hGetEvent s k := by
  have e0 : hGet (s.hooks.getD []) k = hGetEvent s k := by
    unfold hGetEvent
    cases s.hooks <;> rfl
  show hGet (appendKey (appendKey (appendKey (filterKey (filterKey (filterKey (s.hooks.getD [])
      "Notification" (isOurNotificationHook home)) "Stop" (isOurStopHook home))
      "PermissionRequest" (isOurPermissionHook home)) "Notification" (notifyHook home))
      "PermissionRequest" (permissionHook home)) "Stop" (stopHook home)) k = _
  rw [hGet_appendKey_ne _ _ _ _ h2, hGet_appendKey_ne _ _ _ _ h3,
      hGet_appendKey_ne _ _ _ _ h1, hGet_filterKey_ne _ _ _ _ h3,
      hGet_filterKey_ne _ _ _ _ h2, hGet_filterKey_ne _ _ _ _ h1, e0]

/-- `install` never touches the other top-level keys. -/
theorem installSettings_extra (home : String) (s : ClaudeSettings) :
    (installSettings home s).extra = s.extra := rfl

/-- Shared shape of the three per-key `remove` characterisations. -/
theorem hGetEvent_remove_key (home : String) (s : ClaudeSettings) (k : String)
    (predOf : String → ClaudeHookMatcher → Bool)
    (hpred : predOf "Notification" = isOurNotificationHook home ∧
             predOf "Stop" = isOurStopHook home ∧
             predOf "PermissionRequest" = isOurPermissionHook home)
    (hk : k = "Notification" ∨ k = "Stop" ∨ k = "PermissionRequest") :
    hGetEvent (removeSettings home s) k =
      match hGetEvent s k with
      | none => none
      | some l =>
        if l.filter (fun m => !(predOf k) m) = [] then none
        else some (l.filter (fun m => !(predOf k) m)) := by
  obtain ⟨hooks, extra⟩ := s
  cases hooks with
  | none => rcases hk with hk | hk | hk <;> subst hk <;> rfl
  | some h0 =>
    have key : hGet (removeKey (removeKey (removeKey h0
        "Notification" (isOurNotificationHook home)) "Stop" (isOurStopHook home))
        "PermissionRequest" (isOurPermissionHook home)) k =
        match hGet h0 k with
        | none => none
        | some l =>
          if l.filter (fun m => !(predOf k) m) = [] then none
          else some (l.filter (fun m => !(predOf k) m)) := by
      rcases hk with hk | hk | hk <;> subst hk
      · rw [hGet_removeKey_ne _ _ _ _ (by decide), hGet_removeKey_ne _ _ _ _ (by decide),
            hGet_removeKey_self, hpred.1]
      · rw [hGet_removeKey_ne _ _ _ _ (by decide), hGet_removeKey_self,
            hGet_removeKey_ne _ _ _ _ (by decide), hpred.2.1]
      · rw [hGet_removeKey_self, hGet_removeKey_ne _ _ _ _ (by decide),
            hGet_removeKey_ne _ _ _ _ (by decide), hpred.2.2]
    have e0 : hGetEvent (⟨some h0, extra⟩ : ClaudeSettings) k = hGet h0 k := rfl
    show hGetEvent (if removeKey (removeKey (removeKey h0
        "Notification" (isOurNotificationHook home)) "Stop" (isOurStopHook home))
        "PermissionRequest" (isOurPermissionHook home) = [] then
          (⟨none, extra⟩ : ClaudeSettings)
        else ⟨some (removeKey (removeKey (removeKey h0
          "Notification" (isOurNotificationHook home)) "Stop" (isOurStopHook home))
          "PermissionRequest" (isOurPermissionHook home)), extra⟩) k = _
  -- continued below
    rw [e0] at *
    split
    · rename_i he
      have : hGet (removeKey (removeKey (removeKey h0
          "Notification" (isOurNotificationHook home)) "Stop" (isOurStopHook home))
          "PermissionRequest" (isOurPermissionHook home)) k = none := by
        rw [he]
        rfl
      rw [this] at key
      rw [← key]
      rfl
    · rw [← key]
      rfl

/-- `remove` touches no hook-event key other than the three it owns (even
when it ends up deleting the whole `hooks` container, which can only happen
when no other key existed). -/
theorem hGetEvent_remove_other (home : String) (s : ClaudeSettings) (k : String)
    (h1 : k ≠ "Notification") (h2 : k ≠ "Stop") (h3 : k ≠ "PermissionRequest") :
    hGetEvent (removeSettings home s) k = hGetEvent s k := by
  obtain ⟨hooks, extra⟩ := s
  cases hooks with
  | none => rfl
  | some h0 =>
    have key : hGet (removeKey (removeKey (removeKey h0
        "Notification" (isOurNotificationHook home)) "Stop" (isOurStopHook home))
        "PermissionRequest" (isOurPermissionHook home)) k = hGet h0 k := by
      rw [hGet_removeKey_ne _ _ _ _ h3, hGet_removeKey_ne _ _ _ _ h2,
          hGet_removeKey_ne _ _ _ _ h1]
    show hGetEvent (if removeKey (removeKey (removeKey h0
        "Notification" (isOurNotificationHook home)) "Stop" (isOurStopHook home))
        "PermissionRequest" (isOurPermissionHook home) = [] then
          (⟨none, extra⟩ : ClaudeSettings)
        else ⟨some (removeKey (removeKey (removeKey h0
          "Notification" (isOurNotificationHook home)) "Stop" (isOurStopHook home))
          "PermissionRequest" (isOurPermissionHook home)), extra⟩) k = _
    split
    · rename_i he
      show (none : Option (List ClaudeHookMatcher)) = hGet h0 k
      rw [← key, he]
      rfl
    · exact key

/-- `remove` never touches the other top-level keys. -/
theorem removeSettings_extra (home : String) (s : ClaudeSettings) :
    (removeSettings home s).extra = s.extra := by
  obtain ⟨hooks, extra⟩ := s
  cases hooks with
  | none => rfl
  | some h0 =>
    show (if _ = ([] : HooksObj) then (⟨none, extra⟩ : ClaudeSettings) else _).extra = _
    split <;> rfl

/-- `remove` deletes the `hooks` container rather than leaving it empty. -/
theorem removeSettings_hooks_ne_empty (home : String) (s : ClaudeSettings) :
    (removeSettings home s).hooks ≠ some [] := by
  obtain ⟨hooks, extra⟩ := s
  cases hooks with
  | none => simp [removeSettings]
  | some h0 =>
    show (if removeKey (removeKey (removeKey h0
        "Notification" (isOurNotificationHook home)) "Stop" (isOurStopHook home))
        "PermissionRequest" (isOurPermissionHook home) = [] then
          (⟨none, extra⟩ : ClaudeSettings)
        else ⟨some (removeKey (removeKey (removeKey h0
          "Notification" (isOurNotificationHook home)) "Stop" (isOurStopHook home))
          "PermissionRequest" (isOurPermissionHook home)), extra⟩).hooks ≠ some []
    split
    · simp
    · rename_i he
      simpa using he

/-! ## Ownership facts about the appended matchers -/

/-- Our freshly appended `Notification` matcher is ours by exact path. -/
theorem isOur_notifyHook (home : String) :
    isOurNotificationHook home (notifyHook home) = true := by
  simp [isOurNotificationHook, notifyHook]

/-- Our freshly appended `Stop` matcher is ours by exact path. -/
theorem isOur_stopHook (home : String) :
    isOurStopHook home (stopHook home) = true := by
  simp [isOurStopHook, stopHook]

/-- Our freshly appended `PermissionRequest` matcher is ours by exact path. -/
theorem isOur_permissionHook (home : String) :
    isOurPermissionHook home (permissionHook home) = true := by
  simp [isOurPermissionHook, permissionHook]

/-- Ownership under a single path implies ownership under the union. -/
theorem isOurAny_of_notification (home : String) (m : ClaudeHookMatcher)
    (h : isOurNotificationHook home m = true) : isOurAnyHook home m = true := by
  simp [isOurAnyHook, h]

theorem isOurAny_of_stop (home : String) (m : ClaudeHookMatcher)
    (h : isOurStopHook home m = true) : isOurAnyHook home m = true := by
  simp [isOurAnyHook, h]

theorem isOurAny_of_permission (home : String) (m : ClaudeHookMatcher)
    (h : isOurPermissionHook home m = true) : isOurAnyHook home m = true := by
  simp [isOurAnyHook, h]

/-- The third-party matcher is not ours: its command path `/other/tool.sh`
cannot equal `home ++ "/.claude/hooks/notify.sh"` for any home (the lengths
differ). -/
theorem third_party_not_ours (home : String) :
    isOurNotificationHook home thirdPartyMatcher = false := by
  simp only [isOurNotificationHook, thirdPartyMatcher, List.any_cons, List.any_nil,
    Bool.or_false]
  rw [beq_eq_false_iff_ne]
  intro he
  have hlen := congrArg String.length he
  rw [scriptPath, String.length_append] at hlen
  have h1 : ("/other/tool.sh" : String).length = 14 := rfl
  have h2 : ("/.claude/hooks/notify.sh" : String).length = 24 := rfl
  rw [h1, h2] at hlen
  omega

/-! ## List facts used by the frame and idempotence claims -/

/-- Filtering by the complement of a stronger predicate commutes away:
entries surviving `!q` also survive `!p` when `p` implies `q`. -/
theorem filter_not_filter_not (l : List ClaudeHookMatcher) (p q : ClaudeHookMatcher → Bool)
    (himp : ∀ m, p m = true → q m = true) :
    (l.filter (fun m => !p m)).filter (fun m => !q m) = l.filter (fun m => !q m) := by
  induction l with
  | nil => rfl
  | cons m t ih =>
    cases hp : p m with
    | true =>
      have hq : q m = true := himp m hp
      simp [List.filter_cons, hp, hq, ih]
    | false => cases hq : q m <;> simp [List.filter_cons, hp, hq, ih]

/-- No element of `l.filter (fun m => !p m)` satisfies `p`. -/
theorem any_filter_not (l : List ClaudeHookMatcher) (p : ClaudeHookMatcher → Bool) :
    (l.filter (fun m => !p m)).any p = false := by
  rw [List.any_eq_false]
  intro m hm
  have h := (List.mem_filter.mp hm).2
  simp at h
  simp [h]

/-- `countP` of `p` over a `!p`-filtered list is zero. -/
theorem countP_filter_not (l : List ClaudeHookMatcher) (p : ClaudeHookMatcher → Bool) :
    (l.filter (fun m => !p m)).countP p = 0 := by
  induction l with
  | nil => rfl
  | cons m t ih =>
    by_cases hp : p m = true
    · rw [List.filter_cons_of_neg (by simp [hp])]
      exact ih
    · have hp' : p m = false := (Bool.not_eq_true _).mp hp
      rw [List.filter_cons_of_pos (by simp [hp']), List.countP_cons_of_neg _ _ (by simp [hp'])]
      exact ih

/-- `remove` on the `Notification` key: filter ours out, delete if emptied. -/
theorem hGetEvent_remove_notification (home : String) (s : ClaudeSettings) :
    hGetEvent (removeSettings home s) "Notification" =
      match hGetEvent s "Notification" with
      | none => none
      | some l =>
        if l.filter (fun m => !isOurNotificationHook home m) = [] then none
        else some (l.filter (fun m => !isOurNotificationHook home m)) :=
  hGetEvent_remove_key home s "Notification" (ourPredOf home) ⟨rfl, rfl, rfl⟩ (Or.inl rfl)

/-- `remove` on the `Stop` key: filter ours out, delete if emptied. -/
theorem hGetEvent_remove_stop (home : String) (s : ClaudeSettings) :
    hGetEvent (removeSettings home s) "Stop" =
      match hGetEvent s "Stop" with
      | none => none
      | some l =>
        if l.filter (fun m => !isOurStopHook home m) = [] then none
        else some (l.filter (fun m => !isOurStopHook home m)) :=
  hGetEvent_remove_key home s "Stop" (ourPredOf home) ⟨rfl, rfl, rfl⟩ (Or.inr (Or.inl rfl))

/-- `remove` on the `PermissionRequest` key: filter ours out, delete if
emptied. -/
theorem hGetEvent_remove_permission (home : String) (s : ClaudeSettings) :
    hGetEvent (removeSettings home s) "PermissionRequest" =
      match hGetEvent s "PermissionRequest" with
      | none => none
      | some l =>
        if l.filter (fun m => !isOurPermissionHook home m) = [] then none
        else some (l.filter (fun m => !isOurPermissionHook home m)) :=
  hGetEvent_remove_key home s "PermissionRequest" (ourPredOf home) ⟨rfl, rfl, rfl⟩
    (Or.inr (Or.inr rfl))

/-- Install keeps (in order and multiplicity) every matcher not owned by any
of the three script paths, at every hook-event key. -/
theorem install_frame_filter (home : String) (s : ClaudeSettings) (k : String) :
    (eventList (installSettings home s) k).filter (fun m => !isOurAnyHook home m) =
      (eventList s k).filter (fun m => !isOurAnyHook home m) := by
  by_cases hN : k = "Notification"
  · subst hN
    unfold eventList
    rw [hGetEvent_install_notification]
    simp only [Option.getD_some]
    rw [List.filter_append]
    have h1 : [notifyHook home].filter (fun m => !isOurAnyHook home m) = [] := by
      simp [isOurAny_of_notification home _ (isOur_notifyHook home)]
    rw [h1, List.append_nil]
    exact filter_not_filter_not _ _ _ (fun m h => isOurAny_of_notification home m h)
  by_cases hS : k = "Stop"
  · subst hS
    unfold eventList
    rw [hGetEvent_install_stop]
    simp only [Option.getD_some]
    rw [List.filter_append]
    have h1 : [stopHook home].filter (fun m => !isOurAnyHook home m) = [] := by
      simp [isOurAny_of_stop home _ (isOur_stopHook home)]
    rw [h1, List.append_nil]
    exact filter_not_filter_not _ _ _ (fun m h => isOurAny_of_stop home m h)
  by_cases hP : k = "PermissionRequest"
  · subst hP
    unfold eventList
    rw [hGetEvent_install_permission]
    simp only [Option.getD_some]
    rw [List.filter_append]
    have h1 : [permissionHook home].filter (fun m => !isOurAnyHook home m) = [] := by
      simp [isOurAny_of_permission home _ (isOur_permissionHook home)]
    rw [h1, List.append_nil]
    exact filter_not_filter_not _ _ _ (fun m h => isOurAny_of_permission home m h)
  · unfold eventList
    rw [hGetEvent_install_other home s k hN hS hP]

/-- Remove keeps (in order and multiplicity) every matcher not owned by any
of the three script paths, at every hook-event key. -/
theorem remove_frame_filter (home : String) (s : ClaudeSettings) (k : String) :
    (eventList (removeSettings home s) k).filter (fun m => !isOurAnyHook home m) =
      (eventList s k).filter (fun m => !isOurAnyHook home m) := by
  have main : ∀ (key : String) (pred : ClaudeHookMatcher → Bool),
      (∀ m, pred m = true → isOurAnyHook home m = true) →
      hGetEvent (removeSettings home s) key =
        (match hGetEvent s key with
         | none => none
         | some l =>
           if l.filter (fun m => !pred m) = [] then none
           else some (l.filter (fun m => !pred m))) →
      (eventList (removeSettings home s) key).filter (fun m => !isOurAnyHook home m) =
        (eventList s key).filter (fun m => !isOurAnyHook home m) := by
    intro key pred himp hchar
    unfold eventList
    rw [hchar]
    cases hEv : hGetEvent s key with
    | none => rfl
    | some l =>
      dsimp only
      split
      · rename_i he
        simp only [Option.getD_none, Option.getD_some, List.filter_nil]
        symm
        rw [List.filter_eq_nil_iff]
        intro m hm
        have h2 := List.filter_eq_nil_iff.mp he m hm
        simp only [Bool.not_eq_true', Bool.not_eq_false] at h2
        simp [isOurAny_of_notification, himp m h2]
      · simp only [Option.getD_some]
        exact filter_not_filter_not _ _ _ himp
  by_cases hN : k = "Notification"
  · subst hN
    exact main _ _ (fun m h => isOurAny_of_notification home m h)
      (hGetEvent_remove_notification home s)
  by_cases hS : k = "Stop"
  · subst hS
    exact main _ _ (fun m h => isOurAny_of_stop home m h) (hGetEvent_remove_stop home s)
  by_cases hP : k = "PermissionRequest"
  · subst hP
    exact main _ _ (fun m h => isOurAny_of_permission home m h)
      (hGetEvent_remove_permission home s)
  · unfold eventList
    rw [hGetEvent_remove_other home s k hN hS hP]

/-! ## C3 — frame effect of install/remove -/

/-- C3: `install` and `remove` leave unchanged every matcher that has no
entry with an exact command-path match against one of our three script
paths, at every hook-event key (as the `!isOurAnyHook`-filtered view, which
preserves order and multiplicity of the untouched matchers); hook-event keys
other than the three owned ones are untouched entirely (presence included);
the top-level keys other than `hooks` are untouched; and, concretely,
installing over a document with a third-party matcher under `Notification`
keeps that matcher unchanged in place and appends our matcher after it. -/
theorem install_remove_frame (home : String) (s : ClaudeSettings) (k : String) :
    ((eventList (installSettings home s) k).filter (fun m => !isOurAnyHook home m) =
      (eventList s k).filter (fun m => !isOurAnyHook home m)) ∧
    ((eventList (removeSettings home s) k).filter (fun m => !isOurAnyHook home m) =
      (eventList s k).filter (fun m => !isOurAnyHook home m)) ∧
    (k ≠ "Notification" → k ≠ "Stop" → k ≠ "PermissionRequest" →
      hGetEvent (installSettings home s) k = hGetEvent s k ∧
      hGetEvent (removeSettings home s) k = hGetEvent s k) ∧
    (installSettings home s).extra = s.extra ∧
    (removeSettings home s).extra = s.extra ∧
    eventList (installSettings home settingsWithThirdParty) "Notification" =
      [thirdPartyMatcher, notifyHook home] := by
  refine ⟨install_frame_filter home s k, remove_frame_filter home s k,
    fun h1 h2 h3 => ⟨hGetEvent_install_other home s k h1 h2 h3,
      hGetEvent_remove_other home s k h1 h2 h3⟩,
    installSettings_extra home s, removeSettings_extra home s, ?_⟩
  unfold eventList
  rw [hGetEvent_install_notification]
  have h0 : eventList settingsWithThirdParty "Notification" = [thirdPartyMatcher] := rfl
  rw [h0]
  simp [third_party_not_ours]

/-- Witness for C3 at a concrete home, document and unowned key. -/
theorem install_remove_frame_witness :
    ((eventList (installSettings "/home/u" settingsWithThirdParty) "PreToolUse").filter
        (fun m => !isOurAnyHook "/home/u" m) =
      (eventList settingsWithThirdParty "PreToolUse").filter (fun m => !isOurAnyHook "/home/u" m)) ∧
    hGetEvent (installSettings "/home/u" settingsWithThirdParty) "PreToolUse" =
      hGetEvent settingsWithThirdParty "PreToolUse" ∧
    eventList (installSettings "/home/u" settingsWithThirdParty) "Notification" =
      [thirdPartyMatcher, notifyHook "/home/u"] :=
  ⟨(install_remove_frame "/home/u" settingsWithThirdParty "PreToolUse").1,
   ((install_remove_frame "/home/u" settingsWithThirdParty "PreToolUse").2.2.1
      (by decide) (by decide) (by decide)).1,
   (install_remove_frame "/home/u" settingsWithThirdParty "PreToolUse").2.2.2.2.2⟩

/-! ## C4 — idempotence of install -/

/-- C4: installing twice in a row (the settings mutation does not depend on
the config) leaves exactly one matcher owned by this system — identified by
exact command-path match against the corresponding script path — in each of
the three hook-event arrays. -/
theorem install_idempotent (home : String) (s : ClaudeSettings) :
    (eventList (installSettings home (installSettings home s)) "Notification").countP
        (fun m => isOurNotificationHook home m) = 1 ∧
    (eventList (installSettings home (installSettings home s)) "Stop").countP
        (fun m => isOurStopHook home m) = 1 ∧
    (eventList (installSettings home (installSettings home s)) "PermissionRequest").countP
        (fun m => isOurPermissionHook home m) = 1 := by
  refine ⟨?_, ?_, ?_⟩
  · unfold eventList
    rw [hGetEvent_install_notification]
    simp only [Option.getD_some]
    rw [List.countP_append, countP_filter_not]
    simp [List.countP_cons, isOur_notifyHook]
  · unfold eventList
    rw [hGetEvent_install_stop]
    simp only [Option.getD_some]
    rw [List.countP_append, countP_filter_not]
    simp [List.countP_cons, isOur_stopHook]
  · unfold eventList
    rw [hGetEvent_install_permission]
    simp only [Option.getD_some]
    rw [List.countP_append, countP_filter_not]
    simp [List.countP_cons, isOur_permissionHook]

/-! ## C5 — remove after install uninstalls -/

/-- The settings conjunct of `isInstalled`, through `hGetEvent`. -/
theorem isInstalled_iff (home : String) (s : ClaudeSettings) :
    isInstalledSettings home s =
      ((hGetEvent s "Notification").getD []).any (fun m => isOurNotificationHook home m) := by
  unfold isInstalledSettings hGetEvent
  obtain ⟨hooks, extra⟩ := s
  cases hooks with
  | none => rfl
  | some h =>
    dsimp only
    cases hv : hGet h "Notification" <;> simp [hv]

/-- C5: after `install`, running `remove` yields a document in which
`isInstalled`'s settings check is false (and `remove` also deletes the
script file, falsifying the other conjunct); `remove` strips this system's
matchers from each of the three hook-event keys by exact-path identity and
deletes a key whose array becomes empty (the per-key characterisations),
and it never leaves an empty `hooks` container behind. -/
theorem remove_after_install (home : String) (s : ClaudeSettings) :
    isInstalledSettings home (removeSettings home (installSettings home s)) = false ∧
    (hGetEvent (removeSettings home s) "Notification" =
      match hGetEvent s "Notification" with
      | none => none
      | some l =>
        if l.filter (fun m => !isOurNotificationHook home m) = [] then none
        else some (l.filter (fun m => !isOurNotificationHook home m))) ∧
    (hGetEvent (removeSettings home s) "Stop" =
      match hGetEvent s "Stop" with
      | none => none
      | some l =>
        if l.filter (fun m => !isOurStopHook home m) = [] then none
        else some (l.filter (fun m => !isOurStopHook home m))) ∧
    (hGetEvent (removeSettings home s) "PermissionRequest" =
      match hGetEvent s "PermissionRequest" with
      | none => none
      | some l =>
        if l.filter (fun m => !isOurPermissionHook home m) = [] then none
        else some (l.filter (fun m => !isOurPermissionHook home m))) ∧
    (removeSettings home s).hooks ≠ some [] := by
  refine ⟨?_, hGetEvent_remove_notification home s, hGetEvent_remove_stop home s,
    hGetEvent_remove_permission home s, removeSettings_hooks_ne_empty home s⟩
  rw [isInstalled_iff, hGetEvent_remove_notification, hGetEvent_install_notification]
  dsimp only
  split
  · rfl
  · simp only [Option.getD_some]
    rw [List.filter_append, filter_not_filter_not _ _ _ (fun m h => h)]
    have h1 : [notifyHook home].filter (fun m => !isOurNotificationHook home m) = [] := by
      simp [isOur_notifyHook]
    rw [h1, List.append_nil]
    exact any_filter_not _ _

/-! ## C7 — bash escaping and its interpolation -/

/-- `escList` realises the spec's escaped form. -/
theorem escList_escapes : ∀ l : List Char, EscapedBash l (escList l) := by
  intro l
  induction l with
  | nil => exact EscapedBash.nil
  | cons c cs ih =>
    cases h : isBashSpecial c with
    | true =>
      have : escList (c :: cs) = '\\' :: c :: escList cs := by simp [escList, h]
      rw [this]
      exact EscapedBash.special h ih
    | false =>
      have : escList (c :: cs) = c :: escList cs := by simp [escList, h]
      rw [this]
      exact EscapedBash.plain h ih

/-- An escaped string inside a double-quoted literal never closes the quote
early: the scanner stops exactly at the intended closing quote. -/
theorem dqScan_escList : ∀ (l rest : List Char),
    dqScan (escList l ++ '\"' :: rest) = some rest := by
  intro l
  induction l with
  | nil =>
    intro rest
    show dqScan ([] ++ '\"' :: rest) = some rest
    rw [List.nil_append, dqScan.eq_def]
    simp
  | cons c cs ih =>
    intro rest
    cases h : isBashSpecial c with
    | true =>
      have he : escList (c :: cs) = '\\' :: c :: escList cs := by simp [escList, h]
      rw [he]
      show dqScan ('\\' :: c :: (escList cs ++ '\"' :: rest)) = some rest
      rw [dqScan.eq_def]
      simp only [if_neg (by decide : ¬('\\' = '\"')), if_pos rfl]
      exact ih rest
    | false =>
      have he : escList (c :: cs) = c :: escList cs := by simp [escList, h]
      have hc1 : ¬(c = '\"') := by
        intro hcq
        rw [hcq] at h
        exact absurd h (by decide)
      have hc2 : ¬(c = '\\') := by
        intro hcb
        rw [hcb] at h
        exact absurd h (by decide)
      rw [he]
      show dqScan (c :: (escList cs ++ '\"' :: rest)) = some rest
      rw [dqScan.eq_def]
      simp only [if_neg hc1, if_neg hc2]
      exact ih rest

/-- C7: `escapeForBash` returns the original string with each occurrence of
the five characters (dollar, backquote, backslash, double quote, bang)
preceded by exactly one backslash; the escaped form never terminates a
double-quoted shell literal early (the scanner leaves the literal exactly at
the intended closing quote, the formal reading of "the script remains
syntactically valid shell"); and the main script generator interpolates
exactly this escaped form inside the double-quoted literals of the rendered
`say` invocation. -/
theorem escapeForBash_escapes (s v t : String) (hv : v ≠ "") (ht : t ≠ "") :
    EscapedBash s.data (escapeForBash s).data ∧
    (∀ rest : List Char, dqScan ((escapeForBash s).data ++ '\"' :: rest) = some rest) ∧
    (∃ pre post : String,
      generateScript (talkConfig v t) =
        pre ++ ("say -v \"" ++ escapeForBash v ++ "\" -o \"$TMPFILE\" \"" ++
                escapeForBash t ++ "\"") ++ post) ∧
    (∃ pre post : String,
      generateStopScript (talkConfig v t) =
        pre ++ ("say -v \"" ++ escapeForBash v ++ "\" -o \"$TMPFILE\" \"" ++
                escapeForBash t ++ "\"") ++ post) := by
  refine ⟨escList_escapes s.data, fun rest => dqScan_escList s.data rest, ?_, ?_⟩
  refine ⟨"#!/bin/bash\n# Claude Code Notify - Auto-generated script\n# Do not edit manually, changes will be overwritten\n\n# ============ CONFIG ============\nENABLED=\"" ++
      jsBoolStr true ++ "\"\nVOLUME=\"" ++ jsNumToString (clampNumber 70 0 100 70 / 100) ++
      "\"\nCOOLDOWN=\"" ++ jsNumToString (clampNumber 3 0 30 3) ++
      "\"\n# ================================\n\n# Exit if disabled\nif [[ \"$ENABLED\" != \"true\" ]]; then\n    exit 0\nfi\n\n# Cooldown check\nLOCKFILE=\"/tmp/claude-notify.lock\"\nif [[ -f \"$LOCKFILE\" && \"$COOLDOWN\" -gt 0 ]]; then\n    LAST=$(cat \"$LOCKFILE\" 2>/dev/null || echo 0)\n    NOW=$(date +%s)\n    if (( NOW - LAST < COOLDOWN )); then\n        exit 0\n    fi\nfi\necho $(date +%s) > \"$LOCKFILE\"\n\n# Read notification type from stdin\nINPUT=$(cat)\nTYPE=$(echo \"$INPUT\" | grep -o '\"notification_type\"[[:space:]]*:[[:space:]]*\"[^\"]*\"' | sed 's/.*: *\"//' | sed 's/\"//')\n\n# Play notification based on type\ncase \"$TYPE\" in\n" ++
      ("    " ++ "permission_prompt" ++ ")\n        (\n            TMPFILE=\"/tmp/claude-notify-$$.aiff\"\n            "),
    "\n            afplay -v $VOLUME \"$TMPFILE\"\n            rm -f \"$TMPFILE\" 2>/dev/null\n        ) &\n        ;;\n" ++
      (scriptCase "idle_prompt" (talkSetting v t) ++
       scriptCase "elicitation_dialog" (talkSetting v t) ++
       "    *)\n        # Unknown notification type, ignore\n        ;;\nesac\n\nexit 0\n"), ?_⟩
  have hcase : scriptCase "permission_prompt" (talkSetting v t) =
      ("    " ++ "permission_prompt" ++ ")\n        (\n            TMPFILE=\"/tmp/claude-notify-$$.aiff\"\n            ") ++
      ("say -v \"" ++ escapeForBash v ++ "\" -o \"$TMPFILE\" \"" ++ escapeForBash t ++ "\"") ++
      "\n            afplay -v $VOLUME \"$TMPFILE\"\n            rm -f \"$TMPFILE\" 2>/dev/null\n        ) &\n        ;;\n" := by
    rw [scriptCase]
    rw [if_neg (by simp [talkSetting]), if_pos (by simp [talkSetting])]
    show "    " ++ "permission_prompt" ++ ")\n        (\n            TMPFILE=\"/tmp/claude-notify-$$.aiff\"\n            " ++
      ("say -v \"" ++ escapeForBash (jsOrOpt (talkSetting v t).voice "Ava") ++ "\" -o \"$TMPFILE\" \"" ++
       escapeForBash (jsOrOpt (talkSetting v t).text (underscoreToSpace "permission_prompt")) ++ "\"") ++
      "\n            afplay -v $VOLUME \"$TMPFILE\"\n            rm -f \"$TMPFILE\" 2>/dev/null\n        ) &\n        ;;\n" = _
    rw [show jsOrOpt (talkSetting v t).voice "Ava" = v by simp [talkSetting, jsOrOpt, hv],
        show jsOrOpt (talkSetting v t).text (underscoreToSpace "permission_prompt") = t by
          simp [talkSetting, jsOrOpt, ht]]
  show generateScript (talkConfig v t) = _
  rw [generateScript]
  show (_ : String) = _
  rw [show (talkConfig v t).notifications.permission_prompt = talkSetting v t from rfl,
      show (talkConfig v t).notifications.idle_prompt = talkSetting v t from rfl,
      show (talkConfig v t).notifications.elicitation_dialog = talkSetting v t from rfl,
      hcase]
  rw [show jsBoolStr ((talkConfig v t).enabled == true) = jsBoolStr true from rfl,
      show clampNumber (talkConfig v t).volume 0 100 70 = clampNumber 70 0 100 70 from rfl,
      show clampNumber (talkConfig v t).cooldown 0 30 3 = clampNumber 3 0 30 3 from rfl]
  simp only [String.append_assoc]
  refine ⟨"#!/bin/bash\n# Claude Code Notify - Stop Hook Script (Auto-generated)\n# Do not edit manually, changes will be overwritten\n# This script runs when Claude finishes a response\n\n# ============ CONFIG ============\nENABLED=\"" ++ jsBoolStr ((talkConfig v t).enabled == true) ++ "\"\nRESPONSE_COMPLETE_ENABLED=\"" ++
    jsBoolStr ((talkConfig v t).notifications.response_complete.enabled == true) ++ "\"\nVOLUME=\"" ++
    jsNumToString (clampNumber (talkConfig v t).volume 0 100 70 / 100) ++ "\"\nCOOLDOWN=\"" ++
    jsNumToString (clampNumber (talkConfig v t).cooldown 0 30 3) ++ "\"\n# ================================\n\n# Exit if disabled globally or response_complete is disabled\nif [[ \"$ENABLED\" != \"true\" || \"$RESPONSE_COMPLETE_ENABLED\" != \"true\" ]]; then\n    exit 0\nfi\n\n# Cooldown check (use separate lockfile to not interfere with notification hook)\nLOCKFILE=\"/tmp/claude-notify-stop.lock\"\nif [[ -f \"$LOCKFILE\" && \"$COOLDOWN\" -gt 0 ]]; then\n    LAST=$(cat \"$LOCKFILE\" 2>/dev/null || echo 0)\n    NOW=$(date +%s)\n    if (( NOW - LAST < COOLDOWN )); then\n        exit 0\n    fi\nfi\necho $(date +%s) > \"$LOCKFILE\"\n\n# Play notification\n" ++ "(\n    TMPFILE=\"/tmp/claude-notify-stop-$$.aiff\"\n    ",
    "\n    afplay -v $VOLUME \"$TMPFILE\"\n    rm -f \"$TMPFILE\" 2>/dev/null\n) &\n" ++ "\nexit 0\n", ?_⟩
  simp only [generateStopScript]
  rw [if_pos (show (talkConfig v t).notifications.response_complete.mode = "talk" from rfl)]
  rw [show jsOrOpt (talkConfig v t).notifications.response_complete.voice "Ava" = v by
        simp [talkConfig, talkSetting, jsOrOpt, hv],
      show jsOrOpt (talkConfig v t).notifications.response_complete.text "Response ready" = t by
        simp [talkConfig, talkSetting, jsOrOpt, ht]]
  simp only [String.append_assoc]

/-- Witness for C7 at a concrete string with a `$`, and concrete nonempty
voice and text. -/
theorem escapeForBash_escapes_witness :
    EscapedBash ("a$b" : String).data (escapeForBash "a$b").data ∧
    dqScan ((escapeForBash "a$b").data ++ '\"' :: ['x']) = some ['x'] ∧
    (∃ pre post : String,
      generateScript (talkConfig "X" "Y") =
        pre ++ ("say -v \"" ++ escapeForBash "X" ++ "\" -o \"$TMPFILE\" \"" ++
                escapeForBash "Y" ++ "\"") ++ post) ∧
    (∃ pre post : String,
      generateStopScript (talkConfig "X" "Y") =
        pre ++ ("say -v \"" ++ escapeForBash "X" ++ "\" -o \"$TMPFILE\" \"" ++
                escapeForBash "Y" ++ "\"") ++ post) :=
  ⟨(escapeForBash_escapes "a$b" "X" "Y" (by decide) (by decide)).1,
   (escapeForBash_escapes "a$b" "X" "Y" (by decide) (by decide)).2.1 ['x'],
   (escapeForBash_escapes "a$b" "X" "Y" (by decide) (by decide)).2.2.1,
   (escapeForBash_escapes "a$b" "X" "Y" (by decide) (by decide)).2.2.2⟩


/-! ## C9 — volume/cooldown clamping in the rendered scripts -/

/-- C9: for a configuration with volume 150 and cooldown -1 (other fields
well-formed), the clamped volume fraction is exactly 1 and the clamped
cooldown exactly 0, and each of the three generated scripts embeds them as
the adjacent literal configuration lines `VOLUME="1"` and `COOLDOWN="0"` —
and the rendered cooldown gate only fires when `$COOLDOWN -gt 0`, so the
embedded 0 disables it and every firing plays. -/
theorem clamp_scenario :
    clampNumber 150 0 100 70 / 100 = 1 ∧
    clampNumber (-1) 0 30 3 = 0 ∧
    (∃ p q : String, generateScript cfg9 = p ++ "VOLUME=\"1\"\nCOOLDOWN=\"0\"" ++ q) ∧
    (∃ p q : String, generateStopScript cfg9 = p ++ "VOLUME=\"1\"\nCOOLDOWN=\"0\"" ++ q) ∧
    (∃ p q : String, generatePermissionScript cfg9 = p ++ "VOLUME=\"1\"\nCOOLDOWN=\"0\"" ++ q) := by
  have hv : clampNumber cfg9.volume 0 100 70 / 100 = 1 := by norm_num [cfg9, clampNumber]
  have hc : clampNumber cfg9.cooldown 0 30 3 = 0 := by norm_num [cfg9, clampNumber]
  have h1 : jsNumToString 1 = "1" := by decide
  have h0 : jsNumToString 0 = "0" := by decide
  refine ⟨by norm_num [clampNumber], by norm_num [clampNumber], ?_, ?_, ?_⟩
  · refine ⟨"#!/bin/bash\n# Claude Code Notify - Auto-generated script\n# Do not edit manually, changes will be overwritten\n\n# ============ CONFIG ============\nENABLED=\"" ++ jsBoolStr (cfg9.enabled == true) ++ "\"\n",
      "\n# ================================\n\n# Exit if disabled\nif [[ \"$ENABLED\" != \"true\" ]]; then\n    exit 0\nfi\n\n# Cooldown check\nLOCKFILE=\"/tmp/claude-notify.lock\"\nif [[ -f \"$LOCKFILE\" && \"$COOLDOWN\" -gt 0 ]]; then\n    LAST=$(cat \"$LOCKFILE\" 2>/dev/null || echo 0)\n    NOW=$(date +%s)\n    if (( NOW - LAST < COOLDOWN )); then\n        exit 0\n    fi\nfi\necho $(date +%s) > \"$LOCKFILE\"\n\n# Read notification type from stdin\nINPUT=$(cat)\nTYPE=$(echo \"$INPUT\" | grep -o '\"notification_type\"[[:space:]]*:[[:space:]]*\"[^\"]*\"' | sed 's/.*: *\"//' | sed 's/\"//')\n\n# Play notification based on type\ncase \"$TYPE\" in\n" ++
      scriptCase "permission_prompt" cfg9.notifications.permission_prompt ++
      scriptCase "idle_prompt" cfg9.notifications.idle_prompt ++
      scriptCase "elicitation_dialog" cfg9.notifications.elicitation_dialog ++
      "    *)\n        # Unknown notification type, ignore\n        ;;\nesac\n\nexit 0\n", ?_⟩
    simp only [generateScript, hv, hc, h1, h0]
    rw [show ("\"\nVOLUME=\"" : String) = "\"\n" ++ "VOLUME=\"" from rfl,
        show ("\"\n# ================================\n\n# Exit if disabled\nif [[ \"$ENABLED\" != \"true\" ]]; then\n    exit 0\nfi\n\n# Cooldown check\nLOCKFILE=\"/tmp/claude-notify.lock\"\nif [[ -f \"$LOCKFILE\" && \"$COOLDOWN\" -gt 0 ]]; then\n    LAST=$(cat \"$LOCKFILE\" 2>/dev/null || echo 0)\n    NOW=$(date +%s)\n    if (( NOW - LAST < COOLDOWN )); then\n        exit 0\n    fi\nfi\necho $(date +%s) > \"$LOCKFILE\"\n\n# Read notification type from stdin\nINPUT=$(cat)\nTYPE=$(echo \"$INPUT\" | grep -o '\"notification_type\"[[:space:]]*:[[:space:]]*\"[^\"]*\"' | sed 's/.*: *\"//' | sed 's/\"//')\n\n# Play notification based on type\ncase \"$TYPE\" in\n" : String) = "\"" ++ "\n# ================================\n\n# Exit if disabled\nif [[ \"$ENABLED\" != \"true\" ]]; then\n    exit 0\nfi\n\n# Cooldown check\nLOCKFILE=\"/tmp/claude-notify.lock\"\nif [[ -f \"$LOCKFILE\" && \"$COOLDOWN\" -gt 0 ]]; then\n    LAST=$(cat \"$LOCKFILE\" 2>/dev/null || echo 0)\n    NOW=$(date +%s)\n    if (( NOW - LAST < COOLDOWN )); then\n        exit 0\n    fi\nfi\necho $(date +%s) > \"$LOCKFILE\"\n\n# Read notification type from stdin\nINPUT=$(cat)\nTYPE=$(echo \"$INPUT\" | grep -o '\"notification_type\"[[:space:]]*:[[:space:]]*\"[^\"]*\"' | sed 's/.*: *\"//' | sed 's/\"//')\n\n# Play notification based on type\ncase \"$TYPE\" in\n" from rfl,
        show ("VOLUME=\"1\"\nCOOLDOWN=\"0\"" : String) = "VOLUME=\"" ++ "1" ++ "\"\nCOOLDOWN=\"" ++ "0" ++ "\"" from rfl]
    simp only [String.append_assoc]
  · refine ⟨"#!/bin/bash\n# Claude Code Notify - Stop Hook Script (Auto-generated)\n# Do not edit manually, changes will be overwritten\n# This script runs when Claude finishes a response\n\n# ============ CONFIG ============\nENABLED=\"" ++ jsBoolStr (cfg9.enabled == true) ++ "\"\nRESPONSE_COMPLETE_ENABLED=\"" ++
      jsBoolStr (cfg9.notifications.response_complete.enabled == true) ++ "\"\n",
      "\n# ================================\n\n# Exit if disabled globally or response_complete is disabled\nif [[ \"$ENABLED\" != \"true\" || \"$RESPONSE_COMPLETE_ENABLED\" != \"true\" ]]; then\n    exit 0\nfi\n\n# Cooldown check (use separate lockfile to not interfere with notification hook)\nLOCKFILE=\"/tmp/claude-notify-stop.lock\"\nif [[ -f \"$LOCKFILE\" && \"$COOLDOWN\" -gt 0 ]]; then\n    LAST=$(cat \"$LOCKFILE\" 2>/dev/null || echo 0)\n    NOW=$(date +%s)\n    if (( NOW - LAST < COOLDOWN )); then\n        exit 0\n    fi\nfi\necho $(date +%s) > \"$LOCKFILE\"\n\n# Play notification\n" ++
      ("(\n    TMPFILE=\"/tmp/claude-notify-stop-$$.aiff\"\n    " ++
      ("say -v \"" ++ escapeForBash (jsOrOpt cfg9.notifications.response_complete.voice "Ava") ++ "\" -o \"$TMPFILE\" \"" ++
       escapeForBash (jsOrOpt cfg9.notifications.response_complete.text "Response ready") ++ "\"") ++
      "\n    afplay -v $VOLUME \"$TMPFILE\"\n    rm -f \"$TMPFILE\" 2>/dev/null\n) &\n") ++ "\nexit 0\n", ?_⟩
    simp only [generateStopScript, hv, hc, h1, h0]
    rw [if_pos (show cfg9.notifications.response_complete.mode = "talk" from rfl)]
    rw [show ("\"\nVOLUME=\"" : String) = "\"\n" ++ "VOLUME=\"" from rfl,
        show ("\"\n# ================================\n\n# Exit if disabled globally or response_complete is disabled\nif [[ \"$ENABLED\" != \"true\" || \"$RESPONSE_COMPLETE_ENABLED\" != \"true\" ]]; then\n    exit 0\nfi\n\n# Cooldown check (use separate lockfile to not interfere with notification hook)\nLOCKFILE=\"/tmp/claude-notify-stop.lock\"\nif [[ -f \"$LOCKFILE\" && \"$COOLDOWN\" -gt 0 ]]; then\n    LAST=$(cat \"$LOCKFILE\" 2>/dev/null || echo 0)\n    NOW=$(date +%s)\n    if (( NOW - LAST < COOLDOWN )); then\n        exit 0\n    fi\nfi\necho $(date +%s) > \"$LOCKFILE\"\n\n# Play notification\n" : String) = "\"" ++ "\n# ================================\n\n# Exit if disabled globally or response_complete is disabled\nif [[ \"$ENABLED\" != \"true\" || \"$RESPONSE_COMPLETE_ENABLED\" != \"true\" ]]; then\n    exit 0\nfi\n\n# Cooldown check (use separate lockfile to not interfere with notification hook)\nLOCKFILE=\"/tmp/claude-notify-stop.lock\"\nif [[ -f \"$LOCKFILE\" && \"$COOLDOWN\" -gt 0 ]]; then\n    LAST=$(cat \"$LOCKFILE\" 2>/dev/null || echo 0)\n    NOW=$(date +%s)\n    if (( NOW - LAST < COOLDOWN )); then\n        exit 0\n    fi\nfi\necho $(date +%s) > \"$LOCKFILE\"\n\n# Play notification\n" from rfl,
        show ("VOLUME=\"1\"\nCOOLDOWN=\"0\"" : String) = "VOLUME=\"" ++ "1" ++ "\"\nCOOLDOWN=\"" ++ "0" ++ "\"" from rfl]
    simp only [String.append_assoc]
  · refine ⟨"#!/bin/bash\n# Claude Code Notify - PermissionRequest Hook Script (Auto-generated)\n# Do not edit manually, changes will be overwritten\n# This script runs when Claude needs permission in VSCode IDE\n\n# ============ CONFIG ============\nENABLED=\"" ++ jsBoolStr (cfg9.enabled == true) ++ "\"\nPERMISSION_PROMPT_ENABLED=\"" ++
      jsBoolStr (cfg9.notifications.permission_prompt.enabled == true) ++ "\"\n",
      "\n# ================================\n\n# Exit if disabled globally or permission_prompt is disabled\nif [[ \"$ENABLED\" != \"true\" || \"$PERMISSION_PROMPT_ENABLED\" != \"true\" ]]; then\n    exit 0\nfi\n\n# Cooldown check (use separate lockfile to not interfere with other hooks)\nLOCKFILE=\"/tmp/claude-notify-permission.lock\"\nif [[ -f \"$LOCKFILE\" && \"$COOLDOWN\" -gt 0 ]]; then\n    LAST=$(cat \"$LOCKFILE\" 2>/dev/null || echo 0)\n    NOW=$(date +%s)\n    if (( NOW - LAST < COOLDOWN )); then\n        exit 0\n    fi\nfi\necho $(date +%s) > \"$LOCKFILE\"\n\n# Play notification\n" ++
      ("(\n    TMPFILE=\"/tmp/claude-notify-permission-$$.aiff\"\n    " ++
      ("say -v \"" ++ escapeForBash (jsOrOpt cfg9.notifications.permission_prompt.voice "Ava") ++ "\" -o \"$TMPFILE\" \"" ++
       escapeForBash (jsOrOpt cfg9.notifications.permission_prompt.text "Permission required") ++ "\"") ++
      "\n    afplay -v $VOLUME \"$TMPFILE\"\n    rm -f \"$TMPFILE\" 2>/dev/null\n) &\n") ++ "\nexit 0\n", ?_⟩
    simp only [generatePermissionScript, hv, hc, h1, h0]
    rw [if_pos (show cfg9.notifications.permission_prompt.mode = "talk" from rfl)]
    rw [show ("\"\nVOLUME=\"" : String) = "\"\n" ++ "VOLUME=\"" from rfl,
        show ("\"\n# ================================\n\n# Exit if disabled globally or permission_prompt is disabled\nif [[ \"$ENABLED\" != \"true\" || \"$PERMISSION_PROMPT_ENABLED\" != \"true\" ]]; then\n    exit 0\nfi\n\n# Cooldown check (use separate lockfile to not interfere with other hooks)\nLOCKFILE=\"/tmp/claude-notify-permission.lock\"\nif [[ -f \"$LOCKFILE\" && \"$COOLDOWN\" -gt 0 ]]; then\n    LAST=$(cat \"$LOCKFILE\" 2>/dev/null || echo 0)\n    NOW=$(date +%s)\n    if (( NOW - LAST < COOLDOWN )); then\n        exit 0\n    fi\nfi\necho $(date +%s) > \"$LOCKFILE\"\n\n# Play notification\n" : String) = "\"" ++ "\n# ================================\n\n# Exit if disabled globally or permission_prompt is disabled\nif [[ \"$ENABLED\" != \"true\" || \"$PERMISSION_PROMPT_ENABLED\" != \"true\" ]]; then\n    exit 0\nfi\n\n# Cooldown check (use separate lockfile to not interfere with other hooks)\nLOCKFILE=\"/tmp/claude-notify-permission.lock\"\nif [[ -f \"$LOCKFILE\" && \"$COOLDOWN\" -gt 0 ]]; then\n    LAST=$(cat \"$LOCKFILE\" 2>/dev/null || echo 0)\n    NOW=$(date +%s)\n    if (( NOW - LAST < COOLDOWN )); then\n        exit 0\n    fi\nfi\necho $(date +%s) > \"$LOCKFILE\"\n\n# Play notification\n" from rfl,
        show ("VOLUME=\"1\"\nCOOLDOWN=\"0\"" : String) = "VOLUME=\"" ++ "1" ++ "\"\nCOOLDOWN=\"" ++ "0" ++ "\"" from rfl]
    simp only [String.append_assoc]
